import Mathlib

/-!
# Verification of the ai-cv-eval evaluation-job pipeline

Shallow embedding of the core of the repository:

* `app/util/retry.py` (backoff retrier),
* `app/services/eval_service.py` (admission, pipeline runner, aggregators),
* `app/adapters/repository.py` (SQLite repository, modelled as pure state
  transformations on an in-memory database value),
* `app/adapters/storage.py` (document store capability).

Modelling conventions:

* Python floats are modelled as rationals (`ℚ`); the aggregator arithmetic on
  JSON numbers is exact at this granularity.  IEEE special values (inf/nan)
  and digit-group underscores in numeric strings are not modelled.
* JSON / Python values flowing through adapter boundaries are modelled by the
  inductive type `PyVal` (null, number, string); dictionaries are association
  lists with Python insertion-order update semantics.
* Timestamps (`created_at` / `updated_at`) are real-time effects with no
  bearing on any property below and are omitted from the database model.
-/

/-- Python `round` of a rational to the nearest integer, ties to even
(CPython banker's rounding). -/
def pyRoundInt (q : ℚ) : ℤ :=
  let f : ℤ := ⌊q⌋
  let r : ℚ := q - f
  if r < 1/2 then f
  else if 1/2 < r then f + 1
  else if f % 2 = 0 then f else f + 1

/-- Python `round(x, 2)`: round to the nearest multiple of 1/100. -/
def pyRound2 (q : ℚ) : ℚ :=
  (pyRoundInt (q * 100) : ℚ) / 100

/-- A Python/JSON value as it appears in the adapter dictionaries:
`None`/null, a number, or a string. -/
inductive PyVal where
  | vnone
  | num (q : ℚ)
  | str (s : String)
deriving DecidableEq, Repr

/-- A Python dict with string keys, as an insertion-ordered association list. -/
abbrev PyDict := List (String × PyVal)

/-- `d.get(k, dflt)`: value of the first entry with key `k`, else `dflt`. -/
def pyGet : PyDict → String → PyVal → PyVal
  | [], _, dflt => dflt
  | p :: t, k, dflt => if p.1 == k then p.2 else pyGet t k dflt

/-- `d[k] = v`: overwrite in place if the key exists, else append. -/
def pySet (d : PyDict) (k : String) (v : PyVal) : PyDict :=
  if d.any (fun p => p.1 == k) then
    d.map (fun p => if p.1 == k then (k, v) else p)
  else
    d ++ [(k, v)]

/-- Value of a list of decimal digit characters. -/
def natOfDigits (cs : List Char) : ℕ :=
  cs.foldl (fun a c => a * 10 + (c.toNat - 48)) 0

/-- Grammar core of Python `float(str)` after sign/whitespace handling:
`[digits][.digits][(e|E)[sign]digits]`, at least one mantissa digit. -/
def pyFloatCore? (cs : List Char) : Option ℚ :=
  let (ip, rest) := cs.span (fun c : Char => c.isDigit)
  let (fp, rest2) :=
    match rest with
    | '.' :: t => t.span (fun c : Char => c.isDigit)
    | _ => ([], rest)
  if ip.isEmpty ∧ fp.isEmpty then none
  else
    let mant : ℚ := (natOfDigits ip : ℚ) + (natOfDigits fp : ℚ) / ((10 : ℚ) ^ fp.length)
    match rest2 with
    | [] => some mant
    | c :: t =>
      if c = 'e' ∨ c = 'E' then
        let signExp : ℤ × List Char :=
          match t with
          | '+' :: u => (1, u)
          | '-' :: u => (-1, u)
          | u => (1, u)
        let (ed, r) := signExp.2.span (fun c : Char => c.isDigit)
        if ed.isEmpty ∨ ¬ r.isEmpty then none
        else some (mant * (10 : ℚ) ^ (signExp.1 * (natOfDigits ed : ℤ)))
      else none

/-- Whitespace stripped by Python string conversions (ASCII subset;
the title strings in scope are ASCII). -/
def isPySpace (c : Char) : Bool :=
  c = ' ' ∨ c = '\t' ∨ c = '\n' ∨ c = '\r' ∨ c = '\x0b' ∨ c = '\x0c'

/-- Python `str.strip()` on the modelled whitespace set. -/
def pyStrip (s : String) : String :=
  String.mk (((s.toList.dropWhile isPySpace).reverse.dropWhile isPySpace).reverse)

/-- Python `float(str)`: strip whitespace, optional sign, numeric literal. -/
def pyFloat? (s : String) : Option ℚ :=
  let cs := ((s.toList.dropWhile isPySpace).reverse.dropWhile isPySpace).reverse
  match cs with
  | '+' :: t => pyFloatCore? t
  | '-' :: t => (pyFloatCore? t).map (fun q => -q)
  | t => pyFloatCore? t

/-- `EvalService._safe_number`: `float(value)`, with `TypeError`/`ValueError`
mapped to `0.0`. -/
def safeNumber : PyVal → ℚ
  | .vnone => 0
  | .num q => q
  | .str s =>
    match pyFloat? s with
    | some q => q
    | none => 0

/-- The four CV dimensions of `EvalService._calculate_cv_match_rate`
(score key, weight key); the source's weight-key tuples are singletons. -/
def cvComponents : List (String × String) :=
  [("technical_skills_match", "technical_skills_weight"),
   ("experience_level", "experience_level_weight"),
   ("relevant_achievements", "relevant_achievements_weight"),
   ("cultural_collaboration_fit", "cultural_collaboration_fit_weight")]

/-- The five project dimensions of `EvalService._calculate_project_score`. -/
def projectComponents : List (String × String) :=
  [("correctness", "correctness_weight"),
   ("code_quality_structure", "code_quality_structure_weight"),
   ("resilience_error_handling", "resilience_error_handling_weight"),
   ("documentation_explanation", "documentation_explanation_weight"),
   ("creativity_bonus", "creativity_bonus_weight")]

/-- `weight / 100.0 if weight > 1 else weight`. -/
def weightFraction (w : ℚ) : ℚ :=
  if 1 < w then w / 100 else w

/-- One accumulation step of the aggregator loops in
`_calculate_cv_match_rate` / `_calculate_project_score`. -/
def aggStep (d : PyDict) (acc : ℚ × ℚ) (comp : String × String) : ℚ × ℚ :=
  let score := safeNumber (pyGet d comp.1 .vnone)
  let wf := weightFraction (safeNumber (pyGet d comp.2 .vnone))
  if wf ≤ 0 then acc else (acc.1 + score * wf, acc.2 + wf)

/-- The weighted-sum / total-weight loop shared by both aggregators. -/
def aggSums (components : List (String × String)) (d : PyDict) : ℚ × ℚ :=
  components.foldl (aggStep d) (0, 0)

/-- `EvalService._calculate_cv_match_rate`. -/
def calculateCvMatchRate (scoredResume : PyDict) : ℚ :=
  let acc := aggSums cvComponents scoredResume
  if acc.2 ≤ 0 then 0 else pyRound2 (acc.1 / acc.2) * (1/5)

/-- `EvalService._calculate_project_score`. -/
def calculateProjectScore (scoredReport : PyDict) : ℚ :=
  let acc := aggSums projectComponents scoredReport
  if acc.2 ≤ 0 then 0 else pyRound2 (acc.1 / acc.2)

/-- Weight fraction a dict assigns to a weight key (spec's reading). -/
def dimWeightFraction (d : PyDict) (wk : String) : ℚ :=
  weightFraction (safeNumber (pyGet d wk .vnone))

/-- Dimensions included in both sums per the claim: weight fraction `> 0`. -/
def cvIncludedDims (d : PyDict) : List (String × String) :=
  cvComponents.filter (fun c => 0 < dimWeightFraction d c.2)

/-- Claim-side weighted sum over the included CV dimensions. -/
def cvSpecWeightedSum (d : PyDict) : ℚ :=
  ((cvIncludedDims d).map
    (fun c => safeNumber (pyGet d c.1 .vnone) * dimWeightFraction d c.2)).sum

/-- Claim-side total weight over the included CV dimensions. -/
def cvSpecTotalWeight (d : PyDict) : ℚ :=
  ((cvIncludedDims d).map (fun c => dimWeightFraction d c.2)).sum

/-- The CV aggregator formula exactly as claim C4 states it. -/
def cvSpecMatchRate (d : PyDict) : ℚ :=
  if cvSpecTotalWeight d ≤ 0 then 0
  else pyRound2 (cvSpecWeightedSum d / cvSpecTotalWeight d) * (1/5)

/-- Scores `{a:5,b:5,c:5,d:5}` with equal weights 25 each. -/
def cvDictAllFives : PyDict :=
  [("technical_skills_match", .num 5), ("experience_level", .num 5),
   ("relevant_achievements", .num 5), ("cultural_collaboration_fit", .num 5),
   ("technical_skills_weight", .num 25), ("experience_level_weight", .num 25),
   ("relevant_achievements_weight", .num 25), ("cultural_collaboration_fit_weight", .num 25)]

/-- All-zero scores with equal weights 25 each. -/
def cvDictAllZeroScores : PyDict :=
  [("technical_skills_match", .num 0), ("experience_level", .num 0),
   ("relevant_achievements", .num 0), ("cultural_collaboration_fit", .num 0),
   ("technical_skills_weight", .num 25), ("experience_level_weight", .num 25),
   ("relevant_achievements_weight", .num 25), ("cultural_collaboration_fit_weight", .num 25)]

/-- Nonzero scores with all weight keys absent. -/
def cvDictNoWeights : PyDict :=
  [("technical_skills_match", .num 5), ("experience_level", .num 4),
   ("relevant_achievements", .num 3), ("cultural_collaboration_fit", .num 2)]

/-- Nonzero scores with all weights present but zero. -/
def cvDictZeroWeights : PyDict :=
  [("technical_skills_match", .num 5), ("experience_level", .num 5),
   ("relevant_achievements", .num 5), ("cultural_collaboration_fit", .num 5),
   ("technical_skills_weight", .num 0), ("experience_level_weight", .num 0),
   ("relevant_achievements_weight", .num 0), ("cultural_collaboration_fit_weight", .num 0)]

/-- An exception raised by a remote Gemini call: either a
`google.genai errors.APIError` (transient remote-API condition) or any other
exception.  The carried message is `str(exc)`. -/
inductive RemoteError where
  | apiError (msg : String)
  | other (msg : String)
deriving DecidableEq, Repr

/-- `is_retryable_gemini_error`: `isinstance(exc, errors.APIError)`. -/
def isRetryableGeminiError : RemoteError → Bool
  | .apiError _ => true
  | .other _ => false

/-- Behaviour of one invocation of the wrapped operation: it either returns a
value or raises an error. -/
inductive Attempt (α : Type) where
  | ok (v : α)
  | err (e : RemoteError)
deriving DecidableEq, Repr

/-- Final outcome of `async_retry` / `sync_retry`: a result, the re-raised
last error, or the `ValueError` raised when `attempts < 1`. -/
inductive RetryOutcome (α : Type) where
  | ok (v : α)
  | raised (e : RemoteError)
  | configError
deriving DecidableEq, Repr

/-- Full observable behaviour of one retrier run: the outcome, how many times
the operation was invoked, and the sequence of back-off sleeps performed. -/
structure RetryTrace (α : Type) where
  outcome : RetryOutcome α
  calls : ℕ
  sleeps : List ℚ
deriving DecidableEq, Repr

/-- `_compute_sleep`: `min(max_delay, base_delay * 2 ** (attempt - 1))`, plus
the `random.uniform(0, jitter)` draw `u` when `jitter > 0`. -/
def computeSleep (attempt : ℕ) (baseDelay maxDelay jitter u : ℚ) : ℚ :=
  let backoff := min maxDelay (baseDelay * 2 ^ (attempt - 1))
  if jitter ≤ 0 then backoff else backoff + u

/-- The `for attempt in range(1, attempts + 1)` loop shared verbatim by
`async_retry` and `sync_retry`: `attempt` is the index of the current
invocation and `remaining` is `attempts - attempt`.  `op` gives the behaviour
of each invocation and `draw` the uniform jitter draw used before each retry. -/
def retryLoop (op : ℕ → Attempt α) (sr : RemoteError → Bool)
    (baseDelay maxDelay jitter : ℚ) (draw : ℕ → ℚ) :
    ℕ → ℕ → RetryTrace α
  | attempt, 0 =>
    match op attempt with
    | .ok v => ⟨.ok v, 1, []⟩
    | .err e => ⟨.raised e, 1, []⟩
  | attempt, r + 1 =>
    match op attempt with
    | .ok v => ⟨.ok v, 1, []⟩
    | .err e =>
      if sr e then
        let s := computeSleep attempt baseDelay maxDelay jitter (draw attempt)
        let rest := retryLoop op sr baseDelay maxDelay jitter draw (attempt + 1) r
        ⟨rest.outcome, rest.calls + 1, s :: rest.sleeps⟩
      else ⟨.raised e, 1, []⟩

/-- `async_retry` / `sync_retry` (their control flow is line-for-line
identical): fail fast on `attempts < 1`, else run the attempt loop starting
at attempt 1 with `attempts - 1` retries remaining. -/
def retryRun (op : ℕ → Attempt α) (attempts : ℕ) (sr : RemoteError → Bool)
    (baseDelay maxDelay jitter : ℚ) (draw : ℕ → ℚ) : RetryTrace α :=
  if attempts < 1 then ⟨.configError, 0, []⟩
  else retryLoop op sr baseDelay maxDelay jitter draw 1 (attempts - 1)

/-- `GeminiEmbeddingFunction.__call__`'s guard around one
`_embed_single_document` call: `sync_retry` with `attempts=4`,
`base_delay=0.6`, `max_delay=6.0`, `jitter=0.4`,
`should_retry=is_retryable_gemini_error`. -/
def embedSingleDocumentRun (op : ℕ → Attempt α) (draw : ℕ → ℚ) : RetryTrace α :=
  retryRun op 4 isRetryableGeminiError (6/10) 6 (2/5) draw

/-- An operation that raises a retryable API error on attempts 1–3 and then
succeeds on attempt 4. -/
def opFailsThrice : ℕ → Attempt ℕ
  | 1 => .err (.apiError "unavailable 1")
  | 2 => .err (.apiError "unavailable 2")
  | 3 => .err (.apiError "unavailable 3")
  | _ => .ok 42

/-- An operation that always raises a non-retryable error. -/
def opNonRetryable : ℕ → Attempt ℕ :=
  fun _ => .err (.other "invalid api key")

/-- An operation that succeeds immediately. -/
def opImmediateOk : ℕ → Attempt ℕ :=
  fun _ => .ok 7

/-- An `EvaluateRequest` (`app/domain/models.py`): job title plus the two
document references. -/
structure EvaluateRequest where
  jobTitle : String
  cvId : String
  reportId : String
deriving DecidableEq, Repr

/-- Lower-case hexadecimal digit. -/
def hexDigit (n : ℕ) : Char :=
  if n < 10 then Char.ofNat (48 + n) else Char.ofNat (87 + n)

/-- Four lower-case hex digits of `n < 2^16`. -/
def hex4 (n : ℕ) : String :=
  String.mk [hexDigit (n / 4096 % 16), hexDigit (n / 256 % 16),
             hexDigit (n / 16 % 16), hexDigit (n % 16)]

/-- JSON escaping of one character as `json.dumps` does with its default
`ensure_ascii=True`: printable ASCII except quote and backslash is literal,
the control characters with short escapes use them, and everything else
becomes `\uXXXX` (surrogate pairs beyond the BMP). -/
def jsonEscapeChar (c : Char) : String :=
  let n := c.toNat
  if c = '"' then "\\\""
  else if c = '\\' then "\\\\"
  else if n = 8 then "\\b"
  else if n = 9 then "\\t"
  else if n = 10 then "\\n"
  else if n = 12 then "\\f"
  else if n = 13 then "\\r"
  else if n < 32 then "\\u" ++ hex4 n
  else if n ≤ 126 then String.mk [c]
  else if n ≤ 65535 then "\\u" ++ hex4 n
  else
    "\\u" ++ hex4 (55296 + (n - 65536) / 1024) ++ "\\u" ++ hex4 (56320 + (n - 65536) % 1024)

/-- A JSON string literal for `s`. -/
def jsonQuote (s : String) : String :=
  "\"" ++ String.join (s.toList.map jsonEscapeChar) ++ "\""

/-- The canonical serialization built by `EvalService._derive_job_id`:
`json.dumps({"job_title": title.strip(), "cv_id": cv, "report_id": report},
sort_keys=True, separators=(",", ":"))` — keys in sorted order with compact
separators. -/
def canonicalPayload (p : EvaluateRequest) : String :=
  "\x7b" ++ jsonQuote "cv_id" ++ ":" ++ jsonQuote p.cvId ++ ","
        ++ jsonQuote "job_title" ++ ":" ++ jsonQuote (pyStrip p.jobTitle) ++ ","
        ++ jsonQuote "report_id" ++ ":" ++ jsonQuote p.reportId ++ "\x7d"

/-- Truncation to 32 bits. -/
def w32 (n : ℕ) : ℕ := n % 4294967296

/-- 32-bit right rotation. -/
def rotr32 (x n : ℕ) : ℕ := w32 ((x >>> n) ||| (x <<< (32 - n)))

/-- 32-bit bitwise complement (for `x < 2^32`). -/
def not32 (x : ℕ) : ℕ := 4294967295 - x

/-- The SHA-256 round constants. -/
def sha256K : List ℕ :=
  [
   1116352408, 1899447441, 3049323471, 3921009573, 961987163,
   1508970993, 2453635748, 2870763221, 3624381080, 310598401,
   607225278, 1426881987, 1925078388, 2162078206, 2614888103,
   3248222580, 3835390401, 4022224774, 264347078, 604807628,
   770255983, 1249150122, 1555081692, 1996064986, 2554220882,
   2821834349, 2952996808, 3210313671, 3336571891, 3584528711,
   113926993, 338241895, 666307205, 773529912, 1294757372,
   1396182291, 1695183700, 1986661051, 2177026350, 2456956037,
   2730485921, 2820302411, 3259730800, 3345764771, 3516065817,
   3600352804, 4094571909, 275423344, 430227734, 506948616,
   659060556, 883997877, 958139571, 1322822218, 1537002063,
   1747873779, 1955562222, 2024104815, 2227730452, 2361852424,
   2428436474, 2756734187, 3204031479, 3329325298]

/-- The SHA-256 initial hash value. -/
def sha256H0 : List ℕ :=
  [
   1779033703, 3144134277, 1013904242, 2773480762,
   1359893119, 2600822924, 528734635, 1541459225]

/-- SHA-256 padding of a byte message. -/
def sha256Pad (msg : List ℕ) : List ℕ :=
  let len := msg.length
  let zeros := (55 + 64 - len % 64) % 64
  let bitLen := len * 8
  msg ++ [128] ++ List.replicate zeros 0 ++
    [bitLen / 2 ^ 56 % 256, bitLen / 2 ^ 48 % 256, bitLen / 2 ^ 40 % 256,
     bitLen / 2 ^ 32 % 256, bitLen / 2 ^ 24 % 256, bitLen / 2 ^ 16 % 256,
     bitLen / 2 ^ 8 % 256, bitLen % 256]

/-- Split a padded message into 64-byte blocks. -/
def sha256Blocks : List ℕ → List (List ℕ)
  | [] => []
  | b :: bs => (b :: bs).take 64 :: sha256Blocks ((b :: bs).drop 64)
termination_by bs => bs.length
decreasing_by
  simp [List.length_drop]
  omega

/-- The 16 initial 32-bit schedule words of one block. -/
def sha256InitWords (block : List ℕ) : List ℕ :=
  (List.range 16).map (fun i =>
    block.getD (4 * i) 0 * 16777216 + block.getD (4 * i + 1) 0 * 65536 +
    block.getD (4 * i + 2) 0 * 256 + block.getD (4 * i + 3) 0)

/-- Extend the schedule from 16 to 64 words. -/
def sha256Extend (w : List ℕ) : ℕ → List ℕ
  | 0 => w
  | n + 1 =>
    let w2 := sha256Extend w n
    let i := w2.length
    let s0 := rotr32 (w2.getD (i - 15) 0) 7 ^^^ rotr32 (w2.getD (i - 15) 0) 18 ^^^
      (w2.getD (i - 15) 0 >>> 3)
    let s1 := rotr32 (w2.getD (i - 2) 0) 17 ^^^ rotr32 (w2.getD (i - 2) 0) 19 ^^^
      (w2.getD (i - 2) 0 >>> 10)
    w2 ++ [w32 (w2.getD (i - 16) 0 + s0 + w2.getD (i - 7) 0 + s1)]

/-- One SHA-256 compression round. -/
def sha256Round (st : List ℕ) (kw : ℕ × ℕ) : List ℕ :=
  match st with
  | [a, b, c, d, e, f, g, h] =>
    let s1 := rotr32 e 6 ^^^ rotr32 e 11 ^^^ rotr32 e 25
    let ch := (e &&& f) ^^^ (not32 e &&& g)
    let t1 := w32 (h + s1 + ch + kw.1 + kw.2)
    let s0 := rotr32 a 2 ^^^ rotr32 a 13 ^^^ rotr32 a 22
    let mj := (a &&& b) ^^^ (a &&& c) ^^^ (b &&& c)
    let t2 := w32 (s0 + mj)
    [w32 (t1 + t2), a, b, c, w32 (d + t1), e, f, g]
  | other => other

/-- Compress one block into the running hash. -/
def sha256Compress (h : List ℕ) (block : List ℕ) : List ℕ :=
  let w := sha256Extend (sha256InitWords block) 48
  let out := (sha256K.zip w).foldl sha256Round h
  (h.zip out).map (fun p => w32 (p.1 + p.2))

/-- SHA-256 digest (as eight 32-bit words) of a byte message. -/
def sha256Words (msg : List ℕ) : List ℕ :=
  (sha256Blocks (sha256Pad msg)).foldl sha256Compress sha256H0

/-- Eight lower-case hex digits of a 32-bit word. -/
def hex8 (n : ℕ) : String :=
  hex4 (n / 65536) ++ hex4 (n % 65536)

/-- `hashlib.sha256(bytes).hexdigest()`. -/
def sha256Hex (msg : List ℕ) : String :=
  String.join ((sha256Words msg).map hex8)

/-- The UTF-8 bytes of a string, as naturals. -/
def utf8Bytes (s : String) : List ℕ :=
  s.toUTF8.toList.map (fun b => b.toNat)

/-- `EvalService._derive_job_id`: SHA-256 of the canonical payload's UTF-8
encoding, hex digest truncated to 32 characters. -/
def deriveJobId (p : EvaluateRequest) : String :=
  (sha256Hex (utf8Bytes (canonicalPayload p))).take 32

/-- `JobStatus` (`app/domain/models.py`). -/
inductive JobStatus where
  | queued
  | processing
  | completed
  | failed
deriving DecidableEq, Repr

/-- A row of the `jobs` table (timestamps omitted, see the header note). -/
structure JobRow where
  jobTitle : String
  cvFileId : String
  reportFileId : String
  status : JobStatus
  stage : Option String
  errorMessage : Option String
deriving DecidableEq, Repr

/-- A row of the `evaluation_results` table.  The four raw snapshot columns
hold `json.dumps` of the corresponding adapter dict; the model stores the
dict itself, the serialization being an injective encoding that no claim
inspects.  The five final columns hold SQL values, `PyVal.vnone` for NULL. -/
structure EvalResultRow where
  rawCvJson : Option PyDict
  rawProjectJson : Option PyDict
  rawResumeScoreJson : Option PyDict
  rawProjectScoreJson : Option PyDict
  cvMatchRate : PyVal
  cvFeedback : PyVal
  projectScore : PyVal
  projectFeedback : PyVal
  overallSummary : PyVal
deriving DecidableEq, Repr

/-- A freshly inserted `evaluation_results` row: every nullable column NULL. -/
def emptyEvalResultRow : EvalResultRow :=
  ⟨none, none, none, none, .vnone, .vnone, .vnone, .vnone, .vnone⟩

/-- The persisted database: both tables, keyed by job id. -/
structure DB where
  jobs : List (String × JobRow)
  evalResults : List (String × EvalResultRow)
deriving DecidableEq, Repr

/-- Row lookup by primary key. -/
def lookupRow {β : Type} : List (String × β) → String → Option β
  | [], _ => none
  | p :: t, k => if p.1 == k then some p.2 else lookupRow t k

/-- `SQLiteRepository.create_job`: INSERT a `queued` row with NULL stage and
error message; a duplicate primary key raises `IntegrityError` (`.error`). -/
def createJob (db : DB) (jobId : String) (p : EvaluateRequest) : Except Unit DB :=
  if (lookupRow db.jobs jobId).isSome then .error ()
  else .ok { db with
    jobs := db.jobs ++ [(jobId, ⟨p.jobTitle, p.cvId, p.reportId, .queued, none, none⟩)] }

/-- The field patch of `SQLiteRepository.update_job`: `status` is applied when
not `None`; `stage` / `error_message` are applied exactly when supplied
(outer `Option` models the `_UNSET` sentinel). -/
def applyJobPatch (row : JobRow) (status : Option JobStatus)
    (stage errorMessage : Option (Option String)) : JobRow :=
  { row with
    status := status.getD row.status
    stage := stage.getD row.stage
    errorMessage := errorMessage.getD row.errorMessage }

/-- An UPDATE ... WHERE id = k: apply `f` to the matching row, leave every
other row untouched. -/
def patchRows {β : Type} (rows : List (String × β)) (k : String) (f : β → β) :
    List (String × β) :=
  rows.map (fun p => if p.1 == k then (p.1, f p.2) else p)

/-- `SQLiteRepository.update_job`: UPDATE of the listed fields on the matching
row; no-op when the id matches no row. -/
def updateJob (db : DB) (jobId : String) (status : Option JobStatus)
    (stage errorMessage : Option (Option String)) : DB :=
  { db with
    jobs := patchRows db.jobs jobId (fun r => applyJobPatch r status stage errorMessage) }

/-- `SQLiteRepository.create_eval_result`: INSERT of an all-NULL row; a
duplicate `job_id` raises `IntegrityError`. -/
def createEvalResult (db : DB) (jobId : String) : Except Unit DB :=
  if (lookupRow db.evalResults jobId).isSome then .error ()
  else .ok { db with evalResults := db.evalResults ++ [(jobId, emptyEvalResultRow)] }

/-- `SQLiteRepository.update_eval_result` at the granularity the service uses
it: apply a field patch to the matching row only. -/
def updateEvalResult (db : DB) (jobId : String) (f : EvalResultRow → EvalResultRow) : DB :=
  { db with evalResults := patchRows db.evalResults jobId f }

/-- `ResultPayload` (`app/domain/models.py`): the five final fields. -/
structure ResultPayload where
  cvMatchRate : PyVal
  cvFeedback : PyVal
  projectScore : PyVal
  projectFeedback : PyVal
  overallSummary : PyVal
deriving DecidableEq, Repr

/-- `ResultResponse` (`app/domain/models.py`). -/
structure ResultResponse where
  id : String
  status : JobStatus
  stage : Option String
  result : Option ResultPayload
  errorMessage : Option String
deriving DecidableEq, Repr

/-- `SQLiteRepository._row_to_payload`: `None` when all five final fields are
NULL, else the populated payload. -/
def rowToPayload (r : EvalResultRow) : Option ResultPayload :=
  if r.cvMatchRate = .vnone ∧ r.cvFeedback = .vnone ∧ r.projectScore = .vnone ∧
      r.projectFeedback = .vnone ∧ r.overallSummary = .vnone then
    none
  else
    some ⟨r.cvMatchRate, r.cvFeedback, r.projectScore, r.projectFeedback, r.overallSummary⟩

/-- `SQLiteRepository.get_status`: LEFT JOIN of the two tables; a missing job
row yields the synthetic unknown-job view with the fixed sentinel message. -/
def getStatus (db : DB) (jobId : String) : ResultResponse :=
  match lookupRow db.jobs jobId with
  | none => ⟨jobId, .failed, none, none, some "Unknown job id"⟩
  | some j =>
    let payload :=
      match lookupRow db.evalResults jobId with
      | none => none
      | some r => rowToPayload r
    ⟨jobId, j.status, j.stage, payload, j.errorMessage⟩

/-- `EvalService._is_unknown_job`: status `failed` with the exact sentinel
message. -/
def isUnknownJob (r : ResultResponse) : Bool :=
  decide (r.status = .failed ∧ r.errorMessage = some "Unknown job id")

/-- `EvaluateResponse` (`app/domain/models.py`). -/
structure EvaluateResponse where
  id : String
  status : JobStatus
deriving DecidableEq, Repr

/-- Observable behaviour of one `EvalService.enqueue` call: the returned
response (`.error ()` models a propagated `IntegrityError`), the database
afterwards, and whether the job was handed to the background queue. -/
structure EnqueueResult where
  response : Except Unit EvaluateResponse
  db : DB
  submitted : Bool

/-- `EvalService.enqueue`.  `storageExists` is the document store's
`exists(ref)` capability.  Modelled from the spec for the storage side:
`Storage.exists` is declared by the spec (§6) and called by the service, but
no implementation of it appears under `app/adapters/storage.py`. -/
def enqueue (db : DB) (storageExists : String → Bool) (payload : EvaluateRequest) :
    EnqueueResult :=
  let jobId := deriveJobId payload
  let existing := getStatus db jobId
  if isUnknownJob existing = false then
    ⟨.ok ⟨jobId, existing.status⟩, db, false⟩
  else if storageExists payload.cvId = false ∨ storageExists payload.reportId = false then
    ⟨.ok ⟨"CV ID org Report ID not valid", .failed⟩, db, false⟩
  else
    match createJob db jobId payload with
    | .ok db2 => ⟨.ok ⟨jobId, .queued⟩, db2, true⟩
    | .error _ =>
      let existing2 := getStatus db jobId
      if isUnknownJob existing2 then ⟨.error (), db, false⟩
      else ⟨.ok ⟨jobId, existing2.status⟩, db, false⟩

/-- `str(exc)` of a remote-call exception. -/
def RemoteError.message : RemoteError → String
  | .apiError m => m
  | .other m => m

/-- An exception propagating inside `_process_job`. -/
inductive PipeError where
  | remote (e : RemoteError)
  | valueError (msg : String)
  | integrityError
deriving DecidableEq, Repr

/-- `str(exc)` as recorded in `error_message` by the failure handler. -/
def PipeError.message : PipeError → String
  | .remote e => e.message
  | .valueError m => m
  | .integrityError => "IntegrityError"

/-- Behaviour of the external collaborators during one pipeline run; each
field gives the outcome of the corresponding call as a function of the
arguments the runner passes (`.error` means the call raised).  `vsQuery`
returns the `get("text", "")` values of the retrieved chunks.
`candidateOverallSummary` is modelled from the spec: the Summarizer
capability `(scored_cv, scored_report) -> overall_summary_text` (§6) is
invoked by `_process_job` as `llm_provider.get_candidate_overall_summary`,
but no implementation of it appears in the repository. -/
structure AdapterRun where
  extractPdfText : String → Except RemoteError String
  parseResume : String → Except RemoteError PyDict
  parseProjectReport : String → Except RemoteError PyDict
  vsQuery : String → ℕ → Except RemoteError (List String)
  scoreResume : String → String → String → PyDict → Except RemoteError PyDict
  scoreProjectReport : String → String → String → PyDict → Except RemoteError PyDict
  candidateOverallSummary : PyDict → PyDict → Except RemoteError String

/-- The persisted-state history of one run: the current database value and
every database value committed so far, in order. -/
structure RunSt where
  db : DB
  trace : List DB
deriving Repr

/-- One committed repository transaction. -/
def commitTo (f : DB → DB) (st : RunSt) : RunSt :=
  ⟨f st.db, st.trace ++ [f st.db]⟩

/-- An adapter invocation: turns a raised remote error into the propagating
exception, leaving the persisted state untouched.  An in-flight pipeline
computation has type `Except (PipeError × RunSt) (α × RunSt)`: either a value
with the state so far, or the exception with the state at raise time. -/
def adapterCall {α : Type} (r : Except RemoteError α) (st : RunSt) :
    Except (PipeError × RunSt) (α × RunSt) :=
  match r with
  | .ok v => .ok (v, st)
  | .error e => .error (.remote e, st)

/-- `EvalService._process_cv`. -/
def processCv (A : AdapterRun) (jobId : String) (payload : EvaluateRequest)
    (st0 : RunSt) : Except (PipeError × RunSt) (PyDict × RunSt) := do
  let (cvText, st1) ← adapterCall (A.extractPdfText payload.cvId) st0
  if (pyStrip cvText).isEmpty then
    Except.error (.valueError "Unable to extract text from CV PDF.", st1)
  else do
    let st2 := commitTo (fun db => updateJob db jobId none (some (some "cv_extract")) none) st1
    let (structuredCv, st3) ← adapterCall (A.parseResume cvText) st2
    let st4 := commitTo (fun db => updateEvalResult db jobId
      (fun r => { r with rawCvJson := some structuredCv })) st3
    let st5 := commitTo (fun db => updateJob db jobId none (some (some "cv_scoring")) none) st4
    let (ruleChunks, st6) ← adapterCall
      (A.vsQuery "Scoring rubric for CV Match Evaluation" 2) st5
    let scoringRule := String.intercalate "\n" ruleChunks
    let (jdChunks, st7) ← adapterCall
      (A.vsQuery ("Job description for role: " ++ payload.jobTitle) 2) st6
    let jobDescription := String.intercalate "\n" jdChunks
    let (scoredResume0, st8) ← adapterCall
      (A.scoreResume payload.jobTitle scoringRule jobDescription structuredCv) st7
    let scoredResume := pySet scoredResume0 "cv_match_rate"
      (.num (calculateCvMatchRate scoredResume0))
    let st9 := commitTo (fun db => updateEvalResult db jobId
      (fun r => { r with rawResumeScoreJson := some scoredResume })) st8
    Except.ok (scoredResume, st9)

/-- `EvalService._process_project_report`. -/
def processProjectReport (A : AdapterRun) (jobId : String) (payload : EvaluateRequest)
    (st0 : RunSt) : Except (PipeError × RunSt) (PyDict × RunSt) := do
  let (reportText, st1) ← adapterCall (A.extractPdfText payload.reportId) st0
  if (pyStrip reportText).isEmpty then
    Except.error (.valueError "Unable to extract text from Report Project PDF.", st1)
  else do
    let st2 := commitTo (fun db => updateJob db jobId none (some (some "report_extract")) none) st1
    let (structuredReport, st3) ← adapterCall (A.parseProjectReport reportText) st2
    let st4 := commitTo (fun db => updateEvalResult db jobId
      (fun r => { r with rawProjectJson := some structuredReport })) st3
    let st5 := commitTo (fun db => updateJob db jobId none (some (some "report_scoring")) none) st4
    let (ruleChunks, st6) ← adapterCall
      (A.vsQuery "Scoring rubric for Project Deliverable Evaluation" 2) st5
    let scoringRule := String.intercalate "\n" ruleChunks
    let (csChunks, st7) ← adapterCall
      (A.vsQuery ("Case study brief for role: " ++ payload.jobTitle) 2) st6
    let caseStudy := String.intercalate "\n" csChunks
    let (scoredReport0, st8) ← adapterCall
      (A.scoreProjectReport payload.jobTitle scoringRule caseStudy structuredReport) st7
    let scoredReport := pySet scoredReport0 "project_score"
      (.num (calculateProjectScore scoredReport0))
    let st9 := commitTo (fun db => updateEvalResult db jobId
      (fun r => { r with rawProjectScoreJson := some scoredReport })) st8
    Except.ok (scoredReport, st9)

/-- The `candidate_score` dict of `_process_job` and its persist
(`_persist_candidate_overall_summary`): one UPDATE of the five final fields. -/
def persistCandidateScore (jobId : String) (scoredResume scoredReport : PyDict)
    (summary : String) (db : DB) : DB :=
  updateEvalResult db jobId (fun r =>
    { r with
      cvMatchRate := pyGet scoredResume "cv_match_rate" (.num 0)
      cvFeedback := pyGet scoredResume "cv_feedback" (.str "")
      projectScore := pyGet scoredReport "project_score" (.num 0)
      projectFeedback := pyGet scoredReport "project_feedback" (.str "")
      overallSummary := .str summary })

/-- The `try` body of `EvalService._process_job`. -/
def processJobInner (A : AdapterRun) (jobId : String) (payload : EvaluateRequest)
    (st0 : RunSt) : Except (PipeError × RunSt) (Unit × RunSt) := do
  let st1 := commitTo (fun db =>
    updateJob db jobId (some .processing) (some (some "cv_ingest")) (some none)) st0
  let st2 ←
    match createEvalResult st1.db jobId with
    | .ok db2 => Except.ok (⟨db2, st1.trace ++ [db2]⟩ : RunSt)
    | .error _ => Except.error ((PipeError.integrityError, st1) : PipeError × RunSt)
  let (scoredResume, st3) ← processCv A jobId payload st2
  let (scoredReport, st4) ← processProjectReport A jobId payload st3
  let (summary, st5) ← adapterCall (A.candidateOverallSummary scoredResume scoredReport) st4
  let st6 := commitTo (persistCandidateScore jobId scoredResume scoredReport summary) st5
  let st7 := commitTo (fun db =>
    updateJob db jobId (some .completed) (some none) (some none)) st6
  Except.ok ((), st7)

/-- `EvalService._process_job`: the `try` body with the catch-all handler
that records `str(exc)` and marks the job `failed`. -/
def processJob (A : AdapterRun) (jobId : String) (payload : EvaluateRequest)
    (st0 : RunSt) : RunSt :=
  match processJobInner A jobId payload st0 with
  | .ok (_, st) => st
  | .error (e, st) =>
    commitTo (fun db =>
      updateJob db jobId (some .failed) (some none) (some (some e.message))) st

/-- The request used by the concrete admission/pipeline scenarios. -/
def cp : EvaluateRequest := ⟨"Backend Engineer", "cv1", "rep1"⟩

/-- The database state right after a fresh admission of `p` under `jobId`:
one `queued` job row, no evaluation-result row. -/
def admittedDB (jobId : String) (p : EvaluateRequest) : DB :=
  ⟨[(jobId, ⟨p.jobTitle, p.cvId, p.reportId, .queued, none, none⟩)], []⟩

/-- An adapter run whose very first external call (CV text extraction) raises
an exception whose `str` is exactly the unknown-job sentinel text. -/
def collisionAdapters : AdapterRun :=
  { extractPdfText := fun _ => .error (.other "Unknown job id")
    parseResume := fun _ => .ok []
    parseProjectReport := fun _ => .ok []
    vsQuery := fun _ _ => .ok []
    scoreResume := fun _ _ _ _ => .ok []
    scoreProjectReport := fun _ _ _ _ => .ok []
    candidateOverallSummary := fun _ _ => .ok "" }

/-- The persisted state after that genuine pipeline failure. -/
def collisionDB : DB :=
  (processJob collisionAdapters (deriveJobId cp) cp ⟨admittedDB (deriveJobId cp) cp, []⟩).db

/-- A stored job row whose state happens to coincide with the unknown-job
sentinel classification. -/
def sentinelRow : JobRow :=
  ⟨"Backend Engineer", "cv1", "rep1", .failed, none, some "Unknown job id"⟩

/-- A database holding such a row under the identity `enqueue` derives for
`cp`. -/
def cex1DB : DB := ⟨[(deriveJobId cp, sentinelRow)], []⟩

/-- A scored-resume dict used by the concrete partial-failure scenario. -/
def c2ScoredResume : PyDict :=
  [("technical_skills_match", .num 4), ("technical_skills_weight", .num 40),
   ("experience_level", .num 3), ("experience_level_weight", .num 20),
   ("relevant_achievements", .num 5), ("relevant_achievements_weight", .num 20),
   ("cultural_collaboration_fit", .num 4), ("cultural_collaboration_fit_weight", .num 20),
   ("cv_feedback", .str "solid")]

/-- Adapters whose CV branch succeeds and whose report parser raises. -/
def c2Adapters : AdapterRun :=
  { extractPdfText := fun fid => .ok ("text of " ++ fid)
    parseResume := fun _ => .ok [("name", .str "Jane")]
    parseProjectReport := fun _ => .error (.apiError "Gemini 503")
    vsQuery := fun _ _ => .ok ["chunk"]
    scoreResume := fun _ _ _ _ => .ok c2ScoredResume
    scoreProjectReport := fun _ _ _ _ => .ok []
    candidateOverallSummary := fun _ _ => .ok "s" }

/-- A CV-parsing operation that raises a retryable API error on its first
invocation and would succeed on every later one. -/
def flakyParseOp : ℕ → Attempt PyDict :=
  fun k => if k = 1 then .err (.apiError "503 Service Unavailable") else .ok [("name", .str "Jane")]

/-- Adapters whose CV parser behaves like `flakyParseOp`'s first invocation:
the pipeline makes exactly one attempt, so it observes the transient error. -/
def flakyAdapters : AdapterRun :=
  { c2Adapters with parseResume := fun _ => .error (.apiError "503 Service Unavailable") }

/-- All five final fields of an evaluation-result row are set (non-NULL). -/
def fiveFieldsSet (r : EvalResultRow) : Prop :=
  r.cvMatchRate ≠ .vnone ∧ r.cvFeedback ≠ .vnone ∧ r.projectScore ≠ .vnone ∧
  r.projectFeedback ≠ .vnone ∧ r.overallSummary ≠ .vnone

/-- Whatever evaluation-result row this identity has (if any), its five final
fields are all NULL. -/
def finalFieldsUnset (db : DB) (jobId : String) : Prop :=
  ∀ r, lookupRow db.evalResults jobId = some r →
    r.cvMatchRate = .vnone ∧ r.cvFeedback = .vnone ∧ r.projectScore = .vnone ∧
    r.projectFeedback = .vnone ∧ r.overallSummary = .vnone

/-- The persisted state a pipeline computation ends in, success or failure. -/
def pipeState {α : Type} : Except (PipeError × RunSt) (α × RunSt) → RunSt
  | .error (_, st) => st
  | .ok (_, st) => st

/-- A scored-report dict with positive weights and a textual feedback. -/
def c3ScoredReport : PyDict :=
  [("correctness", .num 4), ("correctness_weight", .num 30),
   ("code_quality_structure", .num 3), ("code_quality_structure_weight", .num 25),
   ("resilience_error_handling", .num 4), ("resilience_error_handling_weight", .num 20),
   ("documentation_explanation", .num 5), ("documentation_explanation_weight", .num 15),
   ("creativity_bonus", .num 2), ("creativity_bonus_weight", .num 10),
   ("project_feedback", .str "good")]

/-- Adapters for a fully successful concrete run. -/
def c3Adapters : AdapterRun :=
  { extractPdfText := fun fid => .ok ("text of " ++ fid)
    parseResume := fun _ => .ok [("name", .str "Jane")]
    parseProjectReport := fun _ => .ok [("title", .str "proj")]
    vsQuery := fun _ _ => .ok ["chunk"]
    scoreResume := fun _ _ _ _ => .ok c2ScoredResume
    scoreProjectReport := fun _ _ _ _ => .ok c3ScoredReport
    candidateOverallSummary := fun _ _ => .ok "overall fine" }

/-- The persisted state after the 11th commit of the successful run: the
five-field result persist has committed but the `completed` status update
has not yet. -/
def c3MidState : DB :=
  (processJob c3Adapters "j1" cp ⟨admittedDB "j1" cp, []⟩).trace.getD 10 ⟨[], []⟩

/-- The scorer dict of a run whose LLM emitted an explicit JSON null for
`cv_feedback`. -/
def c3bScoredResume : PyDict :=
  [("technical_skills_match", .num 4), ("technical_skills_weight", .num 40),
   ("experience_level", .num 3), ("experience_level_weight", .num 20),
   ("relevant_achievements", .num 5), ("relevant_achievements_weight", .num 20),
   ("cultural_collaboration_fit", .num 4), ("cultural_collaboration_fit_weight", .num 20),
   ("cv_feedback", .vnone)]

/-- Adapters identical to `c3Adapters` except for the null feedback. -/
def c3bAdapters : AdapterRun :=
  { c3Adapters with scoreResume := fun _ _ _ _ => .ok c3bScoredResume }

/-- Final state of the null-feedback run. -/
def c3bFinalDB : DB :=
  (processJob c3bAdapters "j1" cp ⟨admittedDB "j1" cp, []⟩).db

theorem aggSums_eq_spec_sums (d : PyDict) (l : List (String × String)) (a b : ℚ) :
    l.foldl (aggStep d) (a, b) =
      (a + ((l.filter (fun c => 0 < weightFraction (safeNumber (pyGet d c.2 PyVal.vnone)))).map
              (fun c => safeNumber (pyGet d c.1 PyVal.vnone) *
                weightFraction (safeNumber (pyGet d c.2 PyVal.vnone)))).sum,
       b + ((l.filter (fun c => 0 < weightFraction (safeNumber (pyGet d c.2 PyVal.vnone)))).map
              (fun c => weightFraction (safeNumber (pyGet d c.2 PyVal.vnone)))).sum) := by
  induction l generalizing a b with
  | nil => simp
  | cons c t ih =>
    rcases le_or_lt (weightFraction (safeNumber (pyGet d c.2 PyVal.vnone))) 0 with h | h
    · have hnot : ¬ (0 < weightFraction (safeNumber (pyGet d c.2 PyVal.vnone))) := not_lt.mpr h
      have hstep : aggStep d (a, b) c = (a, b) := by simp [aggStep, h]
      simp only [List.foldl_cons, List.filter_cons, decide_eq_true_eq, if_neg hnot, hstep]
      exact ih a b
    · have hnot : ¬ (weightFraction (safeNumber (pyGet d c.2 PyVal.vnone)) ≤ 0) := not_le.mpr h
      have hstep : aggStep d (a, b) c =
          (a + safeNumber (pyGet d c.1 PyVal.vnone) *
            weightFraction (safeNumber (pyGet d c.2 PyVal.vnone)),
           b + weightFraction (safeNumber (pyGet d c.2 PyVal.vnone))) := by
        simp [aggStep, hnot]
      simp only [List.foldl_cons, List.filter_cons, decide_eq_true_eq, if_pos h, hstep,
        List.map_cons, List.sum_cons]
      rw [ih]
      simp only [Prod.mk.injEq]
      constructor <;> ring

theorem calculateCvMatchRate_eq_spec (d : PyDict) :
    calculateCvMatchRate d = cvSpecMatchRate d := by
  unfold calculateCvMatchRate cvSpecMatchRate aggSums
  rw [aggSums_eq_spec_sums]
  simp [cvSpecWeightedSum, cvSpecTotalWeight, cvIncludedDims, dimWeightFraction]

/-- C4: the CV match rate equals `round(weighted_sum / total_weight, 2) * 0.2`
over the four fixed CV dimensions, where raw weights greater than 1 are divided
by 100, dimensions with weight fraction `≤ 0` (zero, missing or negative) are
excluded from both sums, non-coercible scores count as `0.0`, and a total
weight `≤ 0` yields `0.0`; in particular all-fives scores with weights 25 give
`1.0`, all-zero scores give `0.0`, and absent or all-zero weights give `0.0`. -/
theorem claim_C4_cv_aggregator_formula :
    (∀ d : PyDict, calculateCvMatchRate d = cvSpecMatchRate d) ∧
    (∀ d : PyDict, cvSpecTotalWeight d ≤ 0 → calculateCvMatchRate d = 0) ∧
    calculateCvMatchRate cvDictAllFives = 1 ∧
    calculateCvMatchRate cvDictAllZeroScores = 0 ∧
    calculateCvMatchRate cvDictNoWeights = 0 ∧
    calculateCvMatchRate cvDictZeroWeights = 0 := by
  refine ⟨calculateCvMatchRate_eq_spec, ?_, ?_, ?_, ?_, ?_⟩
  · intro d h
    rw [calculateCvMatchRate_eq_spec, cvSpecMatchRate, if_pos h]
  · simp [calculateCvMatchRate, aggSums, cvComponents, aggStep, pyGet, safeNumber,
      weightFraction, pyRound2, pyRoundInt, cvDictAllFives]
    all_goals norm_num
  · simp [calculateCvMatchRate, aggSums, cvComponents, aggStep, pyGet, safeNumber,
      weightFraction, pyRound2, pyRoundInt, cvDictAllZeroScores]
    all_goals norm_num
  · simp [calculateCvMatchRate, aggSums, cvComponents, aggStep, pyGet, safeNumber,
      weightFraction, pyRound2, pyRoundInt, cvDictNoWeights]
    all_goals norm_num
  · simp [calculateCvMatchRate, aggSums, cvComponents, aggStep, pyGet, safeNumber,
      weightFraction, pyRound2, pyRoundInt, cvDictZeroWeights]
    all_goals norm_num

/-- Witness for C4: the hypothesis-bearing conjunct applied at the empty dict,
whose total weight is zero. -/
theorem claim_C4_witness : calculateCvMatchRate [] = 0 :=
  claim_C4_cv_aggregator_formula.2.1 []
    (by simp [cvSpecTotalWeight, cvIncludedDims, cvComponents, dimWeightFraction,
          pyGet, safeNumber, weightFraction])

theorem retryLoop_ok (op : ℕ → Attempt α) (sr : RemoteError → Bool)
    (b m j : ℚ) (draw : ℕ → ℚ) (k r : ℕ) (v : α) (h : op k = .ok v) :
    retryLoop op sr b m j draw k r = ⟨.ok v, 1, []⟩ := by
  cases r <;> simp [retryLoop, h]

theorem retryLoop_noretry (op : ℕ → Attempt α) (sr : RemoteError → Bool)
    (b m j : ℚ) (draw : ℕ → ℚ) (k r : ℕ) (e : RemoteError)
    (h : op k = .err e) (hsr : sr e = false) :
    retryLoop op sr b m j draw k r = ⟨.raised e, 1, []⟩ := by
  cases r <;> simp [retryLoop, h, hsr]

theorem retryLoop_exhausted (op : ℕ → Attempt α) (sr : RemoteError → Bool)
    (b m j : ℚ) (draw : ℕ → ℚ) (k : ℕ) (e : RemoteError) (h : op k = .err e) :
    retryLoop op sr b m j draw k 0 = ⟨.raised e, 1, []⟩ := by
  simp [retryLoop, h]

theorem retryLoop_step (op : ℕ → Attempt α) (sr : RemoteError → Bool)
    (b m j : ℚ) (draw : ℕ → ℚ) (k r : ℕ) (e : RemoteError)
    (h : op k = .err e) (hsr : sr e = true) :
    retryLoop op sr b m j draw k (r + 1) =
      ⟨(retryLoop op sr b m j draw (k + 1) r).outcome,
       (retryLoop op sr b m j draw (k + 1) r).calls + 1,
       computeSleep k b m j (draw k) ::
         (retryLoop op sr b m j draw (k + 1) r).sleeps⟩ := by
  simp [retryLoop, h, hsr]

/-- If the attempts at indices `k, k+1, …, k+n-1` all fail retryably and the
attempt at `k+n` succeeds within the remaining budget, the loop returns that
success after exactly `n+1` invocations, sleeping the scheduled back-off
before every retry. -/
theorem retryLoop_fail_then_ok (op : ℕ → Attempt α) (sr : RemoteError → Bool)
    (b m j : ℚ) (draw : ℕ → ℚ) (v : α) :
    ∀ (n k r : ℕ),
      (∀ i : ℕ, i < n → ∃ e, op (k + i) = .err e ∧ sr e = true) →
      op (k + n) = .ok v → n ≤ r →
      retryLoop op sr b m j draw k r =
        ⟨.ok v, n + 1, (List.range n).map (fun i => computeSleep (k + i) b m j (draw (k + i)))⟩ := by
  intro n
  induction n with
  | zero =>
    intro k r _ hok _
    simpa using retryLoop_ok op sr b m j draw k r v (by simpa using hok)
  | succ n ih =>
    intro k r hfail hok hle
    obtain ⟨e, he, hsre⟩ := hfail 0 (Nat.succ_pos n)
    obtain ⟨r2, rfl⟩ : ∃ r2, r = r2 + 1 := by
      rcases Nat.exists_eq_add_of_le hle with ⟨c, hc⟩
      exact ⟨n + c, by omega⟩
    rw [retryLoop_step op sr b m j draw k r2 e (by simpa using he) hsre]
    have hrec := ih (k + 1) r2
      (fun i hi => by
        obtain ⟨e2, he2, hs2⟩ := hfail (i + 1) (Nat.succ_lt_succ hi)
        exact ⟨e2, by rw [show k + 1 + i = k + (i + 1) by omega]; exact he2, hs2⟩)
      (by rw [show k + 1 + n = k + (n + 1) by omega]; exact hok)
      (by omega)
    rw [hrec]
    simp only [List.range_succ_eq_map, List.map_cons, List.map_map, Nat.add_zero,
      Function.comp_def, Nat.succ_eq_add_one, RetryTrace.mk.injEq, List.cons.injEq,
      true_and, and_true, and_self]
    refine List.map_congr_left ?_
    intro i _
    have hk : k + 1 + i = k + (i + 1) := by omega
    rw [hk]

/-- If every attempt in the budget fails retryably, the loop makes all
`r + 1` invocations and ends with the last error. -/
theorem retryLoop_all_fail (op : ℕ → Attempt α) (sr : RemoteError → Bool)
    (b m j : ℚ) (draw : ℕ → ℚ) (es : ℕ → RemoteError) :
    ∀ (r k : ℕ),
      (∀ i : ℕ, i ≤ r → op (k + i) = .err (es (k + i)) ∧ sr (es (k + i)) = true) →
      (retryLoop op sr b m j draw k r).outcome = .raised (es (k + r)) ∧
      (retryLoop op sr b m j draw k r).calls = r + 1 := by
  intro r
  induction r with
  | zero =>
    intro k h
    obtain ⟨he, _⟩ := h 0 le_rfl
    rw [retryLoop_exhausted op sr b m j draw k (es (k + 0)) he]
    exact ⟨rfl, rfl⟩
  | succ r ih =>
    intro k h
    obtain ⟨he, hs⟩ := h 0 (Nat.zero_le _)
    rw [retryLoop_step op sr b m j draw k r (es (k + 0)) he hs]
    have hrec := ih (k + 1) (fun i hi => by
      have hh := h (i + 1) (by omega)
      rwa [show k + (i + 1) = k + 1 + i by omega] at hh)
    constructor
    · rw [show k + (r + 1) = k + 1 + r by omega]
      exact hrec.1
    · show (retryLoop op sr b m j draw (k + 1) r).calls + 1 = r + 1 + 1
      rw [hrec.2]

/-- Whenever the loop ends by re-raising, the re-raised error is exactly the
error of the last invocation made. -/
theorem retryLoop_raised_last (op : ℕ → Attempt α) (sr : RemoteError → Bool)
    (b m j : ℚ) (draw : ℕ → ℚ) (e : RemoteError) :
    ∀ (r k : ℕ), (retryLoop op sr b m j draw k r).outcome = .raised e →
      op (k + (retryLoop op sr b m j draw k r).calls - 1) = .err e := by
  intro r
  induction r with
  | zero =>
    intro k h
    rcases hop : op k with v | e2
    · rw [retryLoop_ok op sr b m j draw k 0 v hop] at h
      cases h
    · rw [retryLoop_exhausted op sr b m j draw k e2 hop] at h ⊢
      cases h
      simpa using hop
  | succ r ih =>
    intro k h
    rcases hop : op k with v | e2
    · rw [retryLoop_ok op sr b m j draw k (r + 1) v hop] at h
      cases h
    · rcases hsr : sr e2 with _ | _
      · rw [retryLoop_noretry op sr b m j draw k (r + 1) e2 hop hsr] at h ⊢
        cases h
        simpa using hop
      · rw [retryLoop_step op sr b m j draw k r e2 hop hsr] at h ⊢
        have hrec := ih (k + 1) h
        rw [show k + ((retryLoop op sr b m j draw (k + 1) r).calls + 1) - 1
              = k + 1 + (retryLoop op sr b m j draw (k + 1) r).calls - 1 by omega]
        exact hrec

/-- C6: the delay slept before the k-th retry equals
`min(max_delay, base_delay * 2^(k-1))` plus the uniform draw from
`[0, jitter]` (exactly the minimum when `jitter = 0`), the retrier's sleep
sequence follows this schedule, and with `base_delay=1, max_delay=4,
jitter=0` the delays before attempts 2, 3, 4 are exactly 1, 2, 4. -/
theorem claim_C6_backoff_schedule :
    (∀ (k : ℕ) (b m j u : ℚ), 0 ≤ u → u ≤ j →
        computeSleep k b m j u = min m (b * 2 ^ (k - 1)) + u) ∧
    (∀ (k : ℕ) (b m u : ℚ), computeSleep k b m 0 u = min m (b * 2 ^ (k - 1))) ∧
    (∀ (α : Type) (op : ℕ → Attempt α) (sr : RemoteError → Bool)
        (b m j : ℚ) (draw : ℕ → ℚ) (v : α) (n attempts : ℕ),
        (∀ i : ℕ, i < n → ∃ e, op (1 + i) = .err e ∧ sr e = true) →
        op (1 + n) = .ok v → n < attempts →
        (retryRun op attempts sr b m j draw).sleeps =
          (List.range n).map (fun i => computeSleep (1 + i) b m j (draw (1 + i)))) ∧
    (retryRun opFailsThrice 4 isRetryableGeminiError 1 4 0 (fun _ => 0)).sleeps
      = [1, 2, 4] := by
  refine ⟨?_, ?_, ?_, ?_⟩
  · intro k b m j u hu huj
    unfold computeSleep
    rcases le_or_lt j 0 with hj | hj
    · have hu0 : u = 0 := le_antisymm (le_trans huj hj) hu
      simp [hj, hu0]
    · rw [if_neg (not_le.mpr hj)]
  · intro k b m u
    simp [computeSleep]
  · intro α op sr b m j draw v n attempts hfail hok hlt
    unfold retryRun
    rw [if_neg (by omega)]
    rw [retryLoop_fail_then_ok op sr b m j draw v n 1 (attempts - 1) hfail hok (by omega)]
  · have h := retryLoop_fail_then_ok opFailsThrice isRetryableGeminiError 1 4 0
      (fun _ => 0) 42 3 1 3
      (fun i hi => by
        interval_cases i
        · exact ⟨.apiError "unavailable 1", rfl, rfl⟩
        · exact ⟨.apiError "unavailable 2", rfl, rfl⟩
        · exact ⟨.apiError "unavailable 3", rfl, rfl⟩)
      rfl (by omega)
    unfold retryRun
    rw [if_neg (by omega)]
    rw [show (4 : ℕ) - 1 = 3 from rfl, h]
    norm_num [computeSleep, List.range_succ, min_def]

/-- Witness for C6: the schedule formula applied at attempt 2 with
`base=1, max=4, jitter=1, u=1/2`, and the retrier schedule applied to the
concrete thrice-failing operation. -/
theorem claim_C6_witness :
    computeSleep 2 1 4 1 (1/2) = min 4 ((1 : ℚ) * 2 ^ (2 - 1)) + 1/2 ∧
    (retryRun opFailsThrice 4 isRetryableGeminiError 1 4 0 (fun _ => 0)).sleeps =
      (List.range 3).map (fun i => computeSleep (1 + i) 1 4 0 ((fun _ => (0:ℚ)) (1 + i))) :=
  ⟨claim_C6_backoff_schedule.1 2 1 4 1 (1/2) (by norm_num) (by norm_num),
   claim_C6_backoff_schedule.2.2.1 ℕ opFailsThrice isRetryableGeminiError 1 4 0
     (fun _ => 0) 42 3 4
     (fun i hi => by
       interval_cases i
       · exact ⟨.apiError "unavailable 1", rfl, rfl⟩
       · exact ⟨.apiError "unavailable 2", rfl, rfl⟩
       · exact ⟨.apiError "unavailable 3", rfl, rfl⟩)
     rfl (by omega)⟩

/-- C7: when `should_retry` rejects the error or the budget is exhausted the
retrier re-raises exactly the last error unchanged with no further attempts;
a non-retryable error on attempt 1 aborts with zero delay after exactly one
invocation; a successful attempt returns immediately. -/
theorem claim_C7_retry_propagation :
    (∀ (α : Type) (op : ℕ → Attempt α) (attempts : ℕ) (sr : RemoteError → Bool)
        (b m j : ℚ) (draw : ℕ → ℚ) (e : RemoteError),
        op 1 = .err e → sr e = false → 1 ≤ attempts →
        retryRun op attempts sr b m j draw = ⟨.raised e, 1, []⟩) ∧
    (∀ (α : Type) (op : ℕ → Attempt α) (attempts : ℕ) (sr : RemoteError → Bool)
        (b m j : ℚ) (draw : ℕ → ℚ) (es : ℕ → RemoteError),
        1 ≤ attempts →
        (∀ i : ℕ, 1 ≤ i → i ≤ attempts → op i = .err (es i) ∧ sr (es i) = true) →
        (retryRun op attempts sr b m j draw).outcome = .raised (es attempts) ∧
        (retryRun op attempts sr b m j draw).calls = attempts) ∧
    (∀ (α : Type) (op : ℕ → Attempt α) (attempts : ℕ) (sr : RemoteError → Bool)
        (b m j : ℚ) (draw : ℕ → ℚ) (v : α),
        op 1 = .ok v → 1 ≤ attempts →
        retryRun op attempts sr b m j draw = ⟨.ok v, 1, []⟩) ∧
    (∀ (α : Type) (op : ℕ → Attempt α) (attempts : ℕ) (sr : RemoteError → Bool)
        (b m j : ℚ) (draw : ℕ → ℚ) (e : RemoteError),
        (retryRun op attempts sr b m j draw).outcome = .raised e →
        op ((retryRun op attempts sr b m j draw).calls) = .err e) := by
  refine ⟨?_, ?_, ?_, ?_⟩
  · intro α op attempts sr b m j draw e hop hsr hat
    unfold retryRun
    rw [if_neg (by omega)]
    exact retryLoop_noretry op sr b m j draw 1 (attempts - 1) e hop hsr
  · intro α op attempts sr b m j draw es hat hfail
    unfold retryRun
    rw [if_neg (by omega)]
    have h := retryLoop_all_fail op sr b m j draw es (attempts - 1) 1
      (fun i hi => hfail (1 + i) (by omega) (by omega))
    rw [show 1 + (attempts - 1) = attempts by omega] at h
    exact ⟨h.1, by rw [h.2]; omega⟩
  · intro α op attempts sr b m j draw v hop hat
    unfold retryRun
    rw [if_neg (by omega)]
    exact retryLoop_ok op sr b m j draw 1 (attempts - 1) v hop
  · intro α op attempts sr b m j draw e h
    rcases Nat.lt_or_ge attempts 1 with hat | hat
    · rw [retryRun, if_pos hat] at h
      cases h
    · rw [retryRun, if_neg (by omega)] at h ⊢
      have hlast := retryLoop_raised_last op sr b m j draw e (attempts - 1) 1 h
      rwa [show 1 + (retryLoop op sr b m j draw 1 (attempts - 1)).calls - 1
            = (retryLoop op sr b m j draw 1 (attempts - 1)).calls by omega] at hlast

/-- Witness for C7: the abort, exhaustion and immediate-success conjuncts
applied to concrete operations with three configured attempts. -/
theorem claim_C7_witness :
    retryRun opNonRetryable 3 isRetryableGeminiError 1 4 0 (fun _ => 0)
      = ⟨.raised (.other "invalid api key"), 1, []⟩ ∧
    (retryRun (fun _ => .err (.apiError "down") : ℕ → Attempt ℕ) 3
        isRetryableGeminiError 1 4 0 (fun _ => 0)).outcome = .raised (.apiError "down") ∧
    retryRun opImmediateOk 3 isRetryableGeminiError 1 4 0 (fun _ => 0)
      = ⟨.ok 7, 1, []⟩ :=
  ⟨claim_C7_retry_propagation.1 ℕ opNonRetryable 3 isRetryableGeminiError 1 4 0
      (fun _ => 0) (.other "invalid api key") rfl rfl (by omega),
   (claim_C7_retry_propagation.2.1 ℕ (fun _ => .err (.apiError "down")) 3
      isRetryableGeminiError 1 4 0 (fun _ => 0) (fun _ => .apiError "down") (by omega)
      (fun i _ _ => ⟨rfl, rfl⟩)).1,
   claim_C7_retry_propagation.2.2.1 ℕ opImmediateOk 3 isRetryableGeminiError 1 4 0
      (fun _ => 0) 7 rfl (by omega)⟩

theorem lookupRow_patchRows_self {β : Type} (rows : List (String × β)) (k : String)
    (f : β → β) :
    lookupRow (patchRows rows k f) k = (lookupRow rows k).map f := by
  induction rows with
  | nil => rfl
  | cons p t ih =>
    by_cases hp : (p.1 == k) = true
    · simp [patchRows, lookupRow, hp]
    · simp only [patchRows, List.map_cons, if_neg hp, lookupRow]
      exact ih

theorem lookupRow_append_fresh {β : Type} (rows : List (String × β)) (k : String) (v : β)
    (h : lookupRow rows k = none) :
    lookupRow (rows ++ [(k, v)]) k = some v := by
  induction rows with
  | nil => simp [lookupRow]
  | cons p t ih =>
    by_cases hp : (p.1 == k) = true
    · simp [lookupRow, hp] at h
    · simp only [lookupRow, if_neg hp] at h
      simp only [List.cons_append, lookupRow, if_neg hp]
      exact ih h

/-- C8: for every identity with no job row, `get_status` returns the
first-class failure view with the fixed sentinel message — a total function
(it cannot raise), with the result portion absent rather than zeroed or
partially populated. -/
theorem claim_C8_unknown_job_view (db : DB) (jobId : String)
    (h : lookupRow db.jobs jobId = none) :
    getStatus db jobId = ⟨jobId, .failed, none, none, some "Unknown job id"⟩ := by
  simp [getStatus, h]

/-- Witness for C8: the empty database and an arbitrary identity. -/
theorem claim_C8_witness :
    getStatus ⟨[], []⟩ "никогда" = ⟨"никогда", .failed, none, none, some "Unknown job id"⟩ :=
  claim_C8_unknown_job_view ⟨[], []⟩ "никогда" rfl

/-- C9: when no job row exists for the derived identity and the document
store reports either reference missing, `enqueue` returns the synchronous
failure response, leaves the database unchanged (`create_job` never runs),
and does not hand anything to the queue. -/
theorem claim_C9_missing_document_admission (db : DB) (ex : String → Bool)
    (p : EvaluateRequest)
    (hrow : lookupRow db.jobs (deriveJobId p) = none)
    (hmiss : ex p.cvId = false ∨ ex p.reportId = false) :
    enqueue db ex p = ⟨.ok ⟨"CV ID org Report ID not valid", .failed⟩, db, false⟩ := by
  rcases hmiss with h | h <;> simp [enqueue, getStatus, hrow, isUnknownJob, h]

/-- Witness for C9: empty database, a store in which nothing exists. -/
theorem claim_C9_witness :
    enqueue ⟨[], []⟩ (fun _ => false) ⟨"Backend Engineer", "cv9", "rep9"⟩
      = ⟨.ok ⟨"CV ID org Report ID not valid", .failed⟩, ⟨[], []⟩, false⟩ :=
  claim_C9_missing_document_admission ⟨[], []⟩ (fun _ => false)
    ⟨"Backend Engineer", "cv9", "rep9"⟩ rfl (Or.inl rfl)

/-- C10: a genuine pipeline failure can store exactly the sentinel text
`"Unknown job id"` as its `error_message`; re-submitting the identical
request then misclassifies the stored job as unknown, re-attempts the
insert, and propagates the uniqueness-violation error to the caller instead
of returning the existing `{identity, status}`. -/
theorem claim_C10_sentinel_collision :
    (lookupRow collisionDB.jobs (deriveJobId cp)).map (fun j => (j.status, j.errorMessage))
      = some (JobStatus.failed, some "Unknown job id") ∧
    enqueue collisionDB (fun _ => true) cp = ⟨.error (), collisionDB, false⟩ := by
  constructor
  · simp [collisionDB, processJob, processJobInner, processCv, adapterCall, collisionAdapters,
      commitTo, createEvalResult, admittedDB, lookupRow, updateJob, applyJobPatch, patchRows,
      updateEvalResult, PipeError.message, RemoteError.message, Bind.bind, Except.bind]
  · simp [collisionDB, enqueue, getStatus, processJob, processJobInner, processCv, adapterCall,
      collisionAdapters, commitTo, createEvalResult, createJob, admittedDB, lookupRow, updateJob,
      applyJobPatch, patchRows, updateEvalResult, isUnknownJob, rowToPayload, emptyEvalResultRow,
      PipeError.message, RemoteError.message, Bind.bind, Except.bind]

/-- Counterexample to C1 as stated: a job row with the derived identity
exists (status `failed`), yet the second identical submission does not
return the existing `{identity, status}` — it propagates an
`IntegrityError` instead. -/
theorem claim_C1_counterexample :
    (lookupRow cex1DB.jobs (deriveJobId cp)).isSome = true ∧
    (enqueue cex1DB (fun _ => true) cp).response = .error () ∧
    (enqueue cex1DB (fun _ => true) cp).response ≠
      .ok ⟨deriveJobId cp, JobStatus.failed⟩ := by
  refine ⟨by simp [cex1DB, lookupRow], ?_, ?_⟩ <;>
    simp [enqueue, cex1DB, getStatus, lookupRow, isUnknownJob, createJob,
      sentinelRow, rowToPayload]

/-- C1 (amended): identity derivation is deterministic in the trimmed title
and the two references; and when a job row with that identity exists whose
stored state is not classified as unknown (`failed` with error message
exactly `"Unknown job id"`), the second call returns the existing
`{identity, status}`, leaves the database unchanged (no second row), and
does not re-enqueue. -/
theorem claim_C1_idempotent_admission :
    (∀ p q : EvaluateRequest, pyStrip p.jobTitle = pyStrip q.jobTitle →
      p.cvId = q.cvId → p.reportId = q.reportId → deriveJobId p = deriveJobId q) ∧
    (∀ (db : DB) (ex : String → Bool) (p : EvaluateRequest) (row : JobRow),
      lookupRow db.jobs (deriveJobId p) = some row →
      ¬ (row.status = JobStatus.failed ∧ row.errorMessage = some "Unknown job id") →
      enqueue db ex p = ⟨.ok ⟨deriveJobId p, row.status⟩, db, false⟩) := by
  constructor
  · intro p q ht hc hr
    unfold deriveJobId canonicalPayload
    rw [ht, hc, hr]
  · intro db ex p row hl hns
    simp [enqueue, getStatus, hl, isUnknownJob, hns]

/-- Witness for C1: two titles differing only in surrounding whitespace give
the same identity, and re-submission against a stored `queued` row returns
that row's status unchanged. -/
theorem claim_C1_witness :
    deriveJobId ⟨"  Backend Engineer ", "cv1", "rep1"⟩ = deriveJobId cp ∧
    enqueue (admittedDB (deriveJobId cp) cp) (fun _ => true) cp
      = ⟨.ok ⟨deriveJobId cp, JobStatus.queued⟩, admittedDB (deriveJobId cp) cp, false⟩ :=
  ⟨claim_C1_idempotent_admission.1 ⟨"  Backend Engineer ", "cv1", "rep1"⟩ cp
      (by decide) rfl rfl,
   claim_C1_idempotent_admission.2 (admittedDB (deriveJobId cp) cp) (fun _ => true) cp
      ⟨cp.jobTitle, cp.cvId, cp.reportId, .queued, none, none⟩
      (by simp [admittedDB, lookupRow]) (by simp)⟩

/-- C2: if the CV branch completes (raw CV snapshot and CV scoring snapshot
persisted) and the report-parsing adapter then raises, the job ends `failed`
with the error recorded verbatim, while the two CV snapshots persisted
earlier remain in the EvaluationResult untouched. -/
theorem claim_C2_partial_failure_trail
    (A : AdapterRun) (p : EvaluateRequest) (jobId : String) (db0 : DB) (tr0 : List DB)
    (jrow : JobRow) (cvText rt : String) (cv sr : PyDict) (rule jd : List String)
    (e : RemoteError)
    (hj : lookupRow db0.jobs jobId = some jrow)
    (he : lookupRow db0.evalResults jobId = none)
    (hext : A.extractPdfText p.cvId = .ok cvText)
    (hne : (pyStrip cvText).isEmpty = false)
    (hparse : A.parseResume cvText = .ok cv)
    (hq1 : A.vsQuery "Scoring rubric for CV Match Evaluation" 2 = .ok rule)
    (hq2 : A.vsQuery ("Job description for role: " ++ p.jobTitle) 2 = .ok jd)
    (hscore : A.scoreResume p.jobTitle (String.intercalate "\n" rule)
      (String.intercalate "\n" jd) cv = .ok sr)
    (hrext : A.extractPdfText p.reportId = .ok rt)
    (hrne : (pyStrip rt).isEmpty = false)
    (hrparse : A.parseProjectReport rt = .error e) :
    lookupRow (processJob A jobId p ⟨db0, tr0⟩).db.jobs jobId
      = some ({ jrow with
          status := JobStatus.failed
          stage := none
          errorMessage := some e.message } : JobRow) ∧
    lookupRow (processJob A jobId p ⟨db0, tr0⟩).db.evalResults jobId
      = some ({ emptyEvalResultRow with
          rawCvJson := some cv
          rawResumeScoreJson := some (pySet sr "cv_match_rate"
            (.num (calculateCvMatchRate sr))) } : EvalResultRow) := by
  simp [processJob, processJobInner, processCv, processProjectReport, adapterCall,
    commitTo, createEvalResult, updateJob, updateEvalResult, applyJobPatch,
    PipeError.message, he, hj, hext, hne, hparse, hq1, hq2, hscore, hrext, hrne, hrparse,
    lookupRow_patchRows_self, lookupRow_append_fresh, Bind.bind, Except.bind, emptyEvalResultRow]

/-- Witness for C2: the concrete run in which report parsing raises after a
successful CV branch. -/
theorem claim_C2_witness :
    lookupRow (processJob c2Adapters "j1" cp ⟨admittedDB "j1" cp, []⟩).db.jobs "j1"
      = some ⟨"Backend Engineer", "cv1", "rep1", JobStatus.failed, none, some "Gemini 503"⟩ ∧
    lookupRow (processJob c2Adapters "j1" cp ⟨admittedDB "j1" cp, []⟩).db.evalResults "j1"
      = some ({ emptyEvalResultRow with
          rawCvJson := some [("name", .str "Jane")]
          rawResumeScoreJson := some (pySet c2ScoredResume "cv_match_rate"
            (.num (calculateCvMatchRate c2ScoredResume))) } : EvalResultRow) :=
  claim_C2_partial_failure_trail c2Adapters cp "j1" (admittedDB "j1" cp) []
    ⟨"Backend Engineer", "cv1", "rep1", .queued, none, none⟩
    "text of cv1" "text of rep1" [("name", .str "Jane")] c2ScoredResume
    ["chunk"] ["chunk"] (.apiError "Gemini 503")
    (by simp [admittedDB, lookupRow, cp]) rfl rfl rfl rfl rfl rfl rfl rfl rfl rfl

/-- Counterexample to C5 as stated: the CV-parsing error is transient — under
the retrier with the `async_retry` defaults (3 attempts) it would never
surface — yet the pipeline run fails the job, because the runner invokes the
parsing adapter directly, with no retry guard. -/
theorem claim_C5_counterexample :
    (retryRun flakyParseOp 3 isRetryableGeminiError (1/2) 5 (1/4) (fun _ => 0)).outcome
      = .ok [("name", .str "Jane")] ∧
    (lookupRow (processJob flakyAdapters "j1" cp ⟨admittedDB "j1" cp, []⟩).db.jobs "j1").map
      (fun j => (j.status, j.errorMessage))
      = some (JobStatus.failed, some "503 Service Unavailable") := by
  constructor
  · have h := retryLoop_fail_then_ok flakyParseOp isRetryableGeminiError (1/2) 5 (1/4)
      (fun _ => 0) [("name", .str "Jane")] 1 1 2
      (fun i hi => by
        interval_cases i
        exact ⟨.apiError "503 Service Unavailable", rfl, rfl⟩)
      rfl (by omega)
    unfold retryRun
    rw [if_neg (by omega), show (3 : ℕ) - 1 = 2 from rfl, h]
  · simp [processJob, processJobInner, processCv, adapterCall, flakyAdapters, c2Adapters,
      commitTo, createEvalResult, admittedDB, lookupRow, updateJob, applyJobPatch, patchRows,
      updateEvalResult, PipeError.message, RemoteError.message, Bind.bind, Except.bind, cp]

/-- C5 (amended): the only adapter calls guarded by the backoff retrier are
the embedding calls inside `GeminiEmbeddingFunction` (via `sync_retry`,
4 attempts, `is_retryable_gemini_error`): for those, a retryable error on
fewer than the configured attempts followed by success never surfaces.  The
pipeline runner's own parsing/scoring/retrieval/summary calls are invoked
directly, exactly once: an error raised there — transient or not — fails the
job (shown for the CV-parsing call). -/
theorem claim_C5_retry_guard_scope :
    (∀ (α : Type) (op : ℕ → Attempt α) (draw : ℕ → ℚ) (v : α) (n : ℕ),
      n < 4 →
      (∀ i : ℕ, i < n → ∃ e, op (1 + i) = .err e ∧ isRetryableGeminiError e = true) →
      op (1 + n) = .ok v →
      (embedSingleDocumentRun op draw).outcome = .ok v) ∧
    (∀ (A : AdapterRun) (p : EvaluateRequest) (jobId : String) (db0 : DB) (tr0 : List DB)
        (jrow : JobRow) (cvText : String) (e : RemoteError),
      lookupRow db0.jobs jobId = some jrow →
      lookupRow db0.evalResults jobId = none →
      A.extractPdfText p.cvId = .ok cvText →
      (pyStrip cvText).isEmpty = false →
      A.parseResume cvText = .error e →
      lookupRow (processJob A jobId p ⟨db0, tr0⟩).db.jobs jobId
        = some ({ jrow with
            status := JobStatus.failed
            stage := none
            errorMessage := some e.message } : JobRow)) := by
  constructor
  · intro α op draw v n hn hfail hok
    unfold embedSingleDocumentRun retryRun
    rw [if_neg (by omega)]
    rw [retryLoop_fail_then_ok op isRetryableGeminiError (6/10) 6 (2/5) draw v n 1 3
      hfail hok (by omega)]
  · intro A p jobId db0 tr0 jrow cvText e hj he hext hne hparse
    simp [processJob, processJobInner, processCv, adapterCall, commitTo, createEvalResult,
      updateJob, updateEvalResult, applyJobPatch, PipeError.message, he, hj, hext, hne, hparse,
      lookupRow_patchRows_self, lookupRow_append_fresh, Bind.bind, Except.bind]

/-- Witness for C5: the embedding guard absorbing one transient failure, and
the unguarded pipeline parse call failing the concrete job. -/
theorem claim_C5_witness :
    (embedSingleDocumentRun flakyParseOp (fun _ => 0)).outcome = .ok [("name", .str "Jane")] ∧
    lookupRow (processJob flakyAdapters "j1" cp ⟨admittedDB "j1" cp, []⟩).db.jobs "j1"
      = some ({ (⟨"Backend Engineer", "cv1", "rep1", .queued, none, none⟩ : JobRow) with
          status := JobStatus.failed
          stage := none
          errorMessage := some (RemoteError.message (.apiError "503 Service Unavailable")) } : JobRow) :=
  ⟨claim_C5_retry_guard_scope.1 PyDict flakyParseOp (fun _ => 0) [("name", .str "Jane")] 1
      (by omega)
      (fun i hi => by
        interval_cases i
        exact ⟨.apiError "503 Service Unavailable", rfl, rfl⟩)
      rfl,
   claim_C5_retry_guard_scope.2 flakyAdapters cp "j1" (admittedDB "j1" cp) []
      ⟨"Backend Engineer", "cv1", "rep1", .queued, none, none⟩
      "text of cv1" (.apiError "503 Service Unavailable")
      (by simp [admittedDB, lookupRow, cp]) rfl rfl rfl rfl⟩

theorem pyGet_append_absent (d : PyDict) (k : String) (v dflt : PyVal)
    (h : d.any (fun p => p.1 == k) = false) :
    pyGet (d ++ [(k, v)]) k dflt = v := by
  induction d with
  | nil => simp [pyGet]
  | cons p t ih =>
    simp only [List.any_cons, Bool.or_eq_false_iff] at h
    rw [List.cons_append]
    show (if (p.1 == k) = true then p.2 else pyGet (t ++ [(k, v)]) k dflt) = v
    rw [if_neg (by simp [h.1])]
    exact ih h.2

theorem pyGet_mapSet_present (d : PyDict) (k : String) (v dflt : PyVal)
    (h : d.any (fun p => p.1 == k) = true) :
    pyGet (d.map (fun p => if p.1 == k then (k, v) else p)) k dflt = v := by
  induction d with
  | nil => simp at h
  | cons p t ih =>
    by_cases hp : (p.1 == k) = true
    · simp only [List.map_cons, if_pos hp, pyGet]
      rw [if_pos (by simp)]
    · simp only [List.any_cons, hp, Bool.false_or] at h
      simp only [List.map_cons, if_neg hp, pyGet, if_neg hp]
      exact ih h

/-- `d[k] = v` then `get(k)` returns `v`. -/
theorem pyGet_pySet_self (d : PyDict) (k : String) (v dflt : PyVal) :
    pyGet (pySet d k v) k dflt = v := by
  unfold pySet
  by_cases h : d.any (fun p => p.1 == k) = true
  · rw [if_pos h]
    exact pyGet_mapSet_present d k v dflt h
  · rw [if_neg h]
    exact pyGet_append_absent d k v dflt (by simp only [Bool.not_eq_true] at h; exact h)

/-- `d[k] = v` leaves every other key's `get` unchanged. -/
theorem pyGet_pySet_ne (d : PyDict) (k k2 : String) (v dflt : PyVal)
    (hne : (k == k2) = false) :
    pyGet (pySet d k v) k2 dflt = pyGet d k2 dflt := by
  unfold pySet
  by_cases h : d.any (fun p => p.1 == k) = true
  · rw [if_pos h]
    clear h
    induction d with
    | nil => rfl
    | cons p t ih =>
      by_cases hp : (p.1 == k) = true
      · have hpk : p.1 = k := by simpa using hp
        rw [List.map_cons, if_pos hp]
        show (if (k == k2) = true then v else _) = _
        rw [if_neg (by simp [hne])]
        rw [show pyGet (p :: t) k2 dflt = pyGet t k2 dflt by
          show (if (p.1 == k2) = true then p.2 else pyGet t k2 dflt) = _
          rw [if_neg (show ¬ (p.1 == k2) = true by rw [hpk]; simp [hne])]]
        exact ih
      · rw [List.map_cons, if_neg hp]
        show (if (p.1 == k2) = true then p.2 else _) = (if (p.1 == k2) = true then p.2 else _)
        by_cases hp2 : (p.1 == k2) = true
        · rw [if_pos hp2, if_pos hp2]
        · rw [if_neg hp2, if_neg hp2]
          exact ih
  · rw [if_neg h]
    clear h
    induction d with
    | nil => simp [pyGet, hne]
    | cons p t ih =>
      rw [List.cons_append]
      show (if (p.1 == k2) = true then p.2 else _) = (if (p.1 == k2) = true then p.2 else _)
      by_cases hp2 : (p.1 == k2) = true
      · rw [if_pos hp2, if_pos hp2]
      · rw [if_neg hp2, if_neg hp2]
        exact ih

theorem lookupRow_append_getD {β : Type} (rows : List (String × β)) (k : String) (v : β) :
    lookupRow (rows ++ [(k, v)]) k = some ((lookupRow rows k).getD v) := by
  induction rows with
  | nil => simp [lookupRow]
  | cons p t ih =>
    by_cases hp : (p.1 == k) = true
    · simp [lookupRow, hp]
    · simp only [List.cons_append, lookupRow, if_neg hp]
      exact ih

theorem finalFieldsUnset_updateJob (db : DB) (j k : String) (s : Option JobStatus)
    (st em : Option (Option String)) (h : finalFieldsUnset db j) :
    finalFieldsUnset (updateJob db k s st em) j :=
  h

theorem finalFieldsUnset_updateEvalResult (db : DB) (j : String)
    (f : EvalResultRow → EvalResultRow)
    (hf : ∀ r, (f r).cvMatchRate = r.cvMatchRate ∧ (f r).cvFeedback = r.cvFeedback ∧
      (f r).projectScore = r.projectScore ∧ (f r).projectFeedback = r.projectFeedback ∧
      (f r).overallSummary = r.overallSummary)
    (h : finalFieldsUnset db j) : finalFieldsUnset (updateEvalResult db j f) j := by
  intro r hr
  have hr2 : (lookupRow db.evalResults j).map f = some r := by
    rw [← lookupRow_patchRows_self]
    exact hr
  rcases hlk : lookupRow db.evalResults j with _ | r0
  · rw [hlk] at hr2
    cases hr2
  · rw [hlk] at hr2
    cases hr2
    obtain ⟨e1, e2, e3, e4, e5⟩ := hf r0
    obtain ⟨u1, u2, u3, u4, u5⟩ := h r0 hlk
    exact ⟨e1.trans u1, e2.trans u2, e3.trans u3, e4.trans u4, e5.trans u5⟩

theorem finalFieldsUnset_createEvalResult (db db2 : DB) (j : String)
    (hc : createEvalResult db j = .ok db2) (h : finalFieldsUnset db j) :
    finalFieldsUnset db2 j := by
  unfold createEvalResult at hc
  by_cases hs : (lookupRow db.evalResults j).isSome = true
  · rw [if_pos hs] at hc
    cases hc
  · rw [if_neg hs] at hc
    cases hc
    intro r hr
    rw [lookupRow_append_getD] at hr
    simp only [Option.some.injEq] at hr
    subst hr
    rcases hlk : lookupRow db.evalResults j with _ | r0
    · exact ⟨rfl, rfl, rfl, rfl, rfl⟩
    · exact h r0 hlk

theorem processCv_preserves_unset (A : AdapterRun) (jobId : String) (p : EvaluateRequest)
    (st0 : RunSt) (h : finalFieldsUnset st0.db jobId) :
    finalFieldsUnset (pipeState (processCv A jobId p st0)).db jobId := by
  unfold processCv
  rcases hx : A.extractPdfText p.cvId with e0 | t0
  · simp only [hx, adapterCall, Bind.bind, Except.bind, pipeState]
    exact h
  · simp only [hx, adapterCall, Bind.bind, Except.bind]
    by_cases hemp : (pyStrip t0).isEmpty = true
    · simp only [if_pos hemp, pipeState]
      exact h
    · simp only [if_neg hemp]
      rcases hp1 : A.parseResume t0 with e1 | cv
      · simp only [hp1, adapterCall, Bind.bind, Except.bind, pipeState]
        exact finalFieldsUnset_updateJob _ _ _ _ _ _ h
      · simp only [hp1, adapterCall, Bind.bind, Except.bind]
        rcases hq1 : A.vsQuery "Scoring rubric for CV Match Evaluation" 2 with e2 | rule
        · simp only [hq1, adapterCall, Bind.bind, Except.bind, pipeState]
          exact finalFieldsUnset_updateJob _ _ _ _ _ _
            (finalFieldsUnset_updateEvalResult _ _ _ (fun r => ⟨rfl, rfl, rfl, rfl, rfl⟩)
              (finalFieldsUnset_updateJob _ _ _ _ _ _ h))
        · simp only [hq1, adapterCall, Bind.bind, Except.bind]
          rcases hq2 : A.vsQuery ("Job description for role: " ++ p.jobTitle) 2 with e3 | jd
          · simp only [hq2, adapterCall, Bind.bind, Except.bind, pipeState]
            exact finalFieldsUnset_updateJob _ _ _ _ _ _
              (finalFieldsUnset_updateEvalResult _ _ _ (fun r => ⟨rfl, rfl, rfl, rfl, rfl⟩)
                (finalFieldsUnset_updateJob _ _ _ _ _ _ h))
          · simp only [hq2, adapterCall, Bind.bind, Except.bind]
            rcases hs : A.scoreResume p.jobTitle (String.intercalate "\n" rule)
                (String.intercalate "\n" jd) cv with e4 | sr
            · simp only [hs, adapterCall, Bind.bind, Except.bind, pipeState]
              exact finalFieldsUnset_updateJob _ _ _ _ _ _
                (finalFieldsUnset_updateEvalResult _ _ _ (fun r => ⟨rfl, rfl, rfl, rfl, rfl⟩)
                  (finalFieldsUnset_updateJob _ _ _ _ _ _ h))
            · simp only [hs, adapterCall, Bind.bind, Except.bind, pipeState]
              exact finalFieldsUnset_updateEvalResult _ _ _ (fun r => ⟨rfl, rfl, rfl, rfl, rfl⟩)
                (finalFieldsUnset_updateJob _ _ _ _ _ _
                  (finalFieldsUnset_updateEvalResult _ _ _ (fun r => ⟨rfl, rfl, rfl, rfl, rfl⟩)
                    (finalFieldsUnset_updateJob _ _ _ _ _ _ h)))

theorem processProjectReport_preserves_unset (A : AdapterRun) (jobId : String)
    (p : EvaluateRequest) (st0 : RunSt) (h : finalFieldsUnset st0.db jobId) :
    finalFieldsUnset (pipeState (processProjectReport A jobId p st0)).db jobId := by
  unfold processProjectReport
  rcases hx : A.extractPdfText p.reportId with e0 | t0
  · simp only [hx, adapterCall, Bind.bind, Except.bind, pipeState]
    exact h
  · simp only [hx, adapterCall, Bind.bind, Except.bind]
    by_cases hemp : (pyStrip t0).isEmpty = true
    · simp only [if_pos hemp, pipeState]
      exact h
    · simp only [if_neg hemp]
      rcases hp1 : A.parseProjectReport t0 with e1 | rep
      · simp only [hp1, adapterCall, Bind.bind, Except.bind, pipeState]
        exact finalFieldsUnset_updateJob _ _ _ _ _ _ h
      · simp only [hp1, adapterCall, Bind.bind, Except.bind]
        rcases hq1 : A.vsQuery "Scoring rubric for Project Deliverable Evaluation" 2 with e2 | rule
        · simp only [hq1, adapterCall, Bind.bind, Except.bind, pipeState]
          exact finalFieldsUnset_updateJob _ _ _ _ _ _
            (finalFieldsUnset_updateEvalResult _ _ _ (fun r => ⟨rfl, rfl, rfl, rfl, rfl⟩)
              (finalFieldsUnset_updateJob _ _ _ _ _ _ h))
        · simp only [hq1, adapterCall, Bind.bind, Except.bind]
          rcases hq2 : A.vsQuery ("Case study brief for role: " ++ p.jobTitle) 2 with e3 | cs
          · simp only [hq2, adapterCall, Bind.bind, Except.bind, pipeState]
            exact finalFieldsUnset_updateJob _ _ _ _ _ _
              (finalFieldsUnset_updateEvalResult _ _ _ (fun r => ⟨rfl, rfl, rfl, rfl, rfl⟩)
                (finalFieldsUnset_updateJob _ _ _ _ _ _ h))
          · simp only [hq2, adapterCall, Bind.bind, Except.bind]
            rcases hs : A.scoreProjectReport p.jobTitle (String.intercalate "\n" rule)
                (String.intercalate "\n" cs) rep with e4 | srep
            · simp only [hs, adapterCall, Bind.bind, Except.bind, pipeState]
              exact finalFieldsUnset_updateJob _ _ _ _ _ _
                (finalFieldsUnset_updateEvalResult _ _ _ (fun r => ⟨rfl, rfl, rfl, rfl, rfl⟩)
                  (finalFieldsUnset_updateJob _ _ _ _ _ _ h))
            · simp only [hs, adapterCall, Bind.bind, Except.bind, pipeState]
              exact finalFieldsUnset_updateEvalResult _ _ _ (fun r => ⟨rfl, rfl, rfl, rfl, rfl⟩)
                (finalFieldsUnset_updateJob _ _ _ _ _ _
                  (finalFieldsUnset_updateEvalResult _ _ _ (fun r => ⟨rfl, rfl, rfl, rfl, rfl⟩)
                    (finalFieldsUnset_updateJob _ _ _ _ _ _ h)))

theorem processJobInner_error_unset (A : AdapterRun) (jobId : String) (p : EvaluateRequest)
    (st0 : RunSt) (e : PipeError) (st1 : RunSt)
    (h : finalFieldsUnset st0.db jobId)
    (heq : processJobInner A jobId p st0 = .error (e, st1)) :
    finalFieldsUnset st1.db jobId := by
  unfold processJobInner at heq
  simp only [Bind.bind, Except.bind, adapterCall] at heq
  have hA : finalFieldsUnset (commitTo (fun db =>
      updateJob db jobId (some .processing) (some (some "cv_ingest")) (some none)) st0).db jobId :=
    finalFieldsUnset_updateJob _ _ _ _ _ _ h
  rcases hce : createEvalResult (commitTo (fun db =>
      updateJob db jobId (some .processing) (some (some "cv_ingest")) (some none)) st0).db jobId
    with u | db2
  · rw [hce] at heq
    cases heq
    exact hA
  · rw [hce] at heq
    have hB : finalFieldsUnset db2 jobId := finalFieldsUnset_createEvalResult _ _ _ hce hA
    dsimp only at heq
    rcases hcv : processCv A jobId p ⟨db2, (commitTo (fun db => updateJob db jobId
        (some .processing) (some (some "cv_ingest")) (some none)) st0).trace ++ [db2]⟩
      with ⟨e2, st2⟩ | ⟨d, st2⟩
    · rw [hcv] at heq
      cases heq
      have hh := processCv_preserves_unset A jobId p
        ⟨db2, (commitTo (fun db => updateJob db jobId (some .processing)
          (some (some "cv_ingest")) (some none)) st0).trace ++ [db2]⟩ hB
      rw [hcv] at hh
      exact hh
    · rw [hcv] at heq
      dsimp only at heq
      have h2 : finalFieldsUnset st2.db jobId := by
        have hh := processCv_preserves_unset A jobId p
          ⟨db2, (commitTo (fun db => updateJob db jobId (some .processing)
            (some (some "cv_ingest")) (some none)) st0).trace ++ [db2]⟩ hB
        rw [hcv] at hh
        exact hh
      rcases hpr : processProjectReport A jobId p st2 with ⟨e3, st3⟩ | ⟨d2, st3⟩
      · rw [hpr] at heq
        cases heq
        have hh := processProjectReport_preserves_unset A jobId p st2 h2
        rw [hpr] at hh
        exact hh
      · rw [hpr] at heq
        dsimp only at heq
        rcases hsum : A.candidateOverallSummary d d2 with e4 | s
        · rw [hsum] at heq
          cases heq
          have hh := processProjectReport_preserves_unset A jobId p st2 h2
          rw [hpr] at hh
          exact hh
        · rw [hsum] at heq
          cases heq

/-- A fully successful pipeline run: the job ends `completed` with stage
cleared, and the five final fields are set whenever the scorer dicts do not
carry explicit nulls under the feedback keys. -/
theorem processJob_completed_fields
    (A : AdapterRun) (p : EvaluateRequest) (jobId : String) (db0 : DB) (tr0 : List DB)
    (jrow : JobRow) (cvText rt : String) (cv sr rep srep : PyDict)
    (rule jd rule2 cs2 : List String) (summary : String)
    (hj : lookupRow db0.jobs jobId = some jrow)
    (he : lookupRow db0.evalResults jobId = none)
    (hext : A.extractPdfText p.cvId = .ok cvText)
    (hne : (pyStrip cvText).isEmpty = false)
    (hparse : A.parseResume cvText = .ok cv)
    (hq1 : A.vsQuery "Scoring rubric for CV Match Evaluation" 2 = .ok rule)
    (hq2 : A.vsQuery ("Job description for role: " ++ p.jobTitle) 2 = .ok jd)
    (hscore : A.scoreResume p.jobTitle (String.intercalate "\n" rule)
      (String.intercalate "\n" jd) cv = .ok sr)
    (hrext : A.extractPdfText p.reportId = .ok rt)
    (hrne : (pyStrip rt).isEmpty = false)
    (hrparse : A.parseProjectReport rt = .ok rep)
    (hq3 : A.vsQuery "Scoring rubric for Project Deliverable Evaluation" 2 = .ok rule2)
    (hq4 : A.vsQuery ("Case study brief for role: " ++ p.jobTitle) 2 = .ok cs2)
    (hscore2 : A.scoreProjectReport p.jobTitle (String.intercalate "\n" rule2)
      (String.intercalate "\n" cs2) rep = .ok srep)
    (hsum : A.candidateOverallSummary
      (pySet sr "cv_match_rate" (.num (calculateCvMatchRate sr)))
      (pySet srep "project_score" (.num (calculateProjectScore srep))) = .ok summary)
    (hfb : pyGet sr "cv_feedback" (.str "") ≠ .vnone)
    (hpf : pyGet srep "project_feedback" (.str "") ≠ .vnone) :
    (lookupRow (processJob A jobId p ⟨db0, tr0⟩).db.jobs jobId).map
        (fun j => (j.status, j.stage)) = some (JobStatus.completed, none) ∧
    (∀ r, lookupRow (processJob A jobId p ⟨db0, tr0⟩).db.evalResults jobId = some r →
      fiveFieldsSet r) := by
  have hgets : pyGet (pySet sr "cv_match_rate" (.num (calculateCvMatchRate sr)))
      "cv_match_rate" (.num 0) = .num (calculateCvMatchRate sr) := pyGet_pySet_self _ _ _ _
  have hgetp : pyGet (pySet srep "project_score" (.num (calculateProjectScore srep)))
      "project_score" (.num 0) = .num (calculateProjectScore srep) := pyGet_pySet_self _ _ _ _
  have hgetf : pyGet (pySet sr "cv_match_rate" (.num (calculateCvMatchRate sr)))
      "cv_feedback" (.str "") = pyGet sr "cv_feedback" (.str "") :=
    pyGet_pySet_ne _ _ _ _ _ rfl
  have hgetpf : pyGet (pySet srep "project_score" (.num (calculateProjectScore srep)))
      "project_feedback" (.str "") = pyGet srep "project_feedback" (.str "") :=
    pyGet_pySet_ne _ _ _ _ _ rfl
  constructor
  · simp [processJob, processJobInner, processCv, processProjectReport, adapterCall,
      commitTo, createEvalResult, updateJob, updateEvalResult, applyJobPatch,
      persistCandidateScore, he, hj, hext, hne, hparse, hq1, hq2, hscore, hrext, hrne,
      hrparse, hq3, hq4, hscore2, hsum, lookupRow_patchRows_self, lookupRow_append_fresh,
      Bind.bind, Except.bind]
  · intro r hr
    simp [processJob, processJobInner, processCv, processProjectReport, adapterCall,
      commitTo, createEvalResult, updateJob, updateEvalResult, applyJobPatch,
      persistCandidateScore, he, hj, hext, hne, hparse, hq1, hq2, hscore, hrext, hrne,
      hrparse, hq3, hq4, hscore2, hsum, lookupRow_patchRows_self, lookupRow_append_fresh,
      Bind.bind, Except.bind, emptyEvalResultRow, hgets, hgetp, hgetf, hgetpf] at hr
    first
    | subst hr
    | (obtain rfl := hr.symm)
    refine ⟨?_, ?_, ?_, ?_, ?_⟩ <;> simp [hfb, hpf]

/-- A failed pipeline run: the job row (if present) ends `failed` with the
error recorded, and every final field of the evaluation result is still
NULL. -/
theorem processJob_failed_fields
    (A : AdapterRun) (p : EvaluateRequest) (jobId : String) (db0 : DB) (tr0 : List DB)
    (e : PipeError) (st1 : RunSt)
    (hun : finalFieldsUnset db0 jobId)
    (hfail : processJobInner A jobId p ⟨db0, tr0⟩ = .error (e, st1)) :
    (∀ jr, lookupRow (processJob A jobId p ⟨db0, tr0⟩).db.jobs jobId = some jr →
      jr.status = JobStatus.failed ∧ jr.stage = none ∧ jr.errorMessage = some e.message) ∧
    finalFieldsUnset (processJob A jobId p ⟨db0, tr0⟩).db jobId := by
  have hs1 : finalFieldsUnset st1.db jobId :=
    processJobInner_error_unset A jobId p ⟨db0, tr0⟩ e st1 hun hfail
  have hfin : processJob A jobId p ⟨db0, tr0⟩ =
      commitTo (fun db =>
        updateJob db jobId (some JobStatus.failed) (some none) (some (some e.message))) st1 := by
    unfold processJob
    rw [hfail]
  constructor
  · intro jr hjr
    rw [hfin] at hjr
    rw [show (commitTo (fun db => updateJob db jobId (some JobStatus.failed) (some none)
        (some (some e.message))) st1).db.jobs = patchRows st1.db.jobs jobId
        (fun r => applyJobPatch r (some JobStatus.failed) (some none)
          (some (some e.message))) from rfl] at hjr
    rw [lookupRow_patchRows_self] at hjr
    rcases hlk : lookupRow st1.db.jobs jobId with _ | r0
    · rw [hlk] at hjr
      cases hjr
    · rw [hlk] at hjr
      cases hjr
      exact ⟨rfl, rfl, rfl⟩
  · rw [hfin]
    exact finalFieldsUnset_updateJob _ _ _ _ _ _ hs1

/-- C3 (amended): status/result agreement in the states the claim survives
on: right after admission the view is `queued` with the result portion
absent; a run that completes ends `completed` with all five final fields set
provided the scorer dicts carry no explicit nulls under the feedback keys;
and a run whose `try` body raises ends `failed` with all five final fields
still NULL.  (As stated the claim also fails on the committed state between
the final five-field persist and the `completed` status update, and on
completed runs whose scorer emitted an explicit null feedback — see the
counterexample.) -/
theorem claim_C3_status_result_agreement :
    (∀ (jobId : String) (p : EvaluateRequest),
      getStatus (admittedDB jobId p) jobId
        = ⟨jobId, JobStatus.queued, none, none, none⟩) ∧
    (∀ (A : AdapterRun) (p : EvaluateRequest) (jobId : String) (db0 : DB) (tr0 : List DB)
        (jrow : JobRow) (cvText rt : String) (cv sr rep srep : PyDict)
        (rule jd rule2 cs2 : List String) (summary : String),
      lookupRow db0.jobs jobId = some jrow →
      lookupRow db0.evalResults jobId = none →
      A.extractPdfText p.cvId = .ok cvText →
      (pyStrip cvText).isEmpty = false →
      A.parseResume cvText = .ok cv →
      A.vsQuery "Scoring rubric for CV Match Evaluation" 2 = .ok rule →
      A.vsQuery ("Job description for role: " ++ p.jobTitle) 2 = .ok jd →
      A.scoreResume p.jobTitle (String.intercalate "\n" rule)
        (String.intercalate "\n" jd) cv = .ok sr →
      A.extractPdfText p.reportId = .ok rt →
      (pyStrip rt).isEmpty = false →
      A.parseProjectReport rt = .ok rep →
      A.vsQuery "Scoring rubric for Project Deliverable Evaluation" 2 = .ok rule2 →
      A.vsQuery ("Case study brief for role: " ++ p.jobTitle) 2 = .ok cs2 →
      A.scoreProjectReport p.jobTitle (String.intercalate "\n" rule2)
        (String.intercalate "\n" cs2) rep = .ok srep →
      A.candidateOverallSummary
        (pySet sr "cv_match_rate" (.num (calculateCvMatchRate sr)))
        (pySet srep "project_score" (.num (calculateProjectScore srep))) = .ok summary →
      pyGet sr "cv_feedback" (.str "") ≠ .vnone →
      pyGet srep "project_feedback" (.str "") ≠ .vnone →
      (lookupRow (processJob A jobId p ⟨db0, tr0⟩).db.jobs jobId).map
          (fun j => (j.status, j.stage)) = some (JobStatus.completed, none) ∧
      (∀ r, lookupRow (processJob A jobId p ⟨db0, tr0⟩).db.evalResults jobId = some r →
        fiveFieldsSet r)) ∧
    (∀ (A : AdapterRun) (p : EvaluateRequest) (jobId : String) (db0 : DB) (tr0 : List DB)
        (e : PipeError) (st1 : RunSt),
      finalFieldsUnset db0 jobId →
      processJobInner A jobId p ⟨db0, tr0⟩ = .error (e, st1) →
      (∀ jr, lookupRow (processJob A jobId p ⟨db0, tr0⟩).db.jobs jobId = some jr →
        jr.status = JobStatus.failed ∧ jr.stage = none ∧
        jr.errorMessage = some e.message) ∧
      finalFieldsUnset (processJob A jobId p ⟨db0, tr0⟩).db jobId) := by
  refine ⟨?_, ?_, ?_⟩
  · intro jobId p
    simp [getStatus, admittedDB, lookupRow]
  · intro A p jobId db0 tr0 jrow cvText rt cv sr rep srep rule jd rule2 cs2 summary
      hj he hext hne hparse hq1 hq2 hscore hrext hrne hrparse hq3 hq4 hscore2 hsum hfb hpf
    exact processJob_completed_fields A p jobId db0 tr0 jrow cvText rt cv sr rep srep
      rule jd rule2 cs2 summary hj he hext hne hparse hq1 hq2 hscore hrext hrne hrparse
      hq3 hq4 hscore2 hsum hfb hpf
  · intro A p jobId db0 tr0 e st1 hun hfail
    exact processJob_failed_fields A p jobId db0 tr0 e st1 hun hfail

/-- Counterexample to C3 as stated: (a) the committed state between the
final five-field persist and the `completed` status update has status
`processing` with ALL five final fields set; (b) a run whose scorer emits an
explicit null `cv_feedback` ends `completed` with that field NULL. -/
theorem claim_C3_counterexample :
    ((lookupRow c3MidState.jobs "j1").map (fun j => j.status)
      = some JobStatus.processing) ∧
    ((lookupRow c3MidState.evalResults "j1").elim False fiveFieldsSet) ∧
    ((lookupRow c3bFinalDB.jobs "j1").map (fun j => j.status)
      = some JobStatus.completed) ∧
    ((lookupRow c3bFinalDB.evalResults "j1").map (fun r => r.cvFeedback)
      = some PyVal.vnone) := by
  refine ⟨?_, ?_, ?_, ?_⟩ <;>
    simp [c3MidState, c3bFinalDB, processJob, processJobInner, processCv,
      processProjectReport, adapterCall, c3Adapters, c3bAdapters, commitTo,
      createEvalResult, admittedDB, lookupRow, updateJob, applyJobPatch, patchRows,
      updateEvalResult, persistCandidateScore, emptyEvalResultRow, fiveFieldsSet,
      pySet, pyGet, c2ScoredResume, c3ScoredReport, c3bScoredResume, cp,
      PipeError.message, RemoteError.message, Bind.bind, Except.bind]

/-- Witness for C3: the queued view after a fresh admission, and the
completed-run conjunct applied to the concrete successful run. -/
theorem claim_C3_witness :
    getStatus (admittedDB "j0" cp) "j0" = ⟨"j0", JobStatus.queued, none, none, none⟩ ∧
    (lookupRow (processJob c3Adapters "j1" cp ⟨admittedDB "j1" cp, []⟩).db.jobs "j1").map
        (fun j => (j.status, j.stage)) = some (JobStatus.completed, none) :=
  ⟨claim_C3_status_result_agreement.1 "j0" cp,
   (claim_C3_status_result_agreement.2.1 c3Adapters cp "j1" (admittedDB "j1" cp) []
      ⟨"Backend Engineer", "cv1", "rep1", .queued, none, none⟩
      "text of cv1" "text of rep1" [("name", .str "Jane")] c2ScoredResume
      [("title", .str "proj")] c3ScoredReport ["chunk"] ["chunk"] ["chunk"] ["chunk"]
      "overall fine"
      (by simp [admittedDB, lookupRow, cp]) rfl rfl rfl rfl rfl rfl rfl rfl rfl rfl rfl rfl
      rfl rfl (by decide) (by decide)).1⟩
